import Mathlib

/-!
Shallow embedding of the per-connection QUIC transport core
(`transport` package, `conn.go`) and the parts of its collaborators the
claims need.  Definitions are translated from the Go source where it is
available; components of this repository that are not in the provided
sources (frame/packet codecs, `stream.go`, `flowcontrol.go`,
`recovery.go`, `packet_space.go`, the TLS adapter and the serving
wrapper) are modelled from the specification and carry a doc comment
saying so.  Go `time.Time` is modelled as `Int` nanoseconds with the Go
zero value mapped to `0` (`IsZero` becomes `= 0`); `time.Duration` is
`Int` nanoseconds; byte strings are `List Nat`.
-/

namespace Quic

/-- Wire error codes used by the transport core (spec section 6, plus
INVALID_TOKEN which `errInvalidToken` in the source carries). -/
inductive ErrorCode where
  | noError
  | internalError
  | connectionRefused
  | flowControlError
  | streamLimitError
  | streamStateError
  | finalSizeError
  | frameEncodingError
  | transportParameterError
  | protocolViolation
  | invalidToken
  | cryptoError
deriving DecidableEq, Repr

/-- Wire value of each error code (spec section 6). -/
def ErrorCode.wire : ErrorCode → Nat
  | .noError => 0x0
  | .internalError => 0x1
  | .connectionRefused => 0x2
  | .flowControlError => 0x3
  | .streamLimitError => 0x4
  | .streamStateError => 0x5
  | .finalSizeError => 0x6
  | .frameEncodingError => 0x7
  | .transportParameterError => 0x8
  | .protocolViolation => 0xA
  | .invalidToken => 0xB
  | .cryptoError => 0x100

/-- A transport error: code plus reason phrase, as built by `newError`. -/
structure QError where
  code : ErrorCode
  reason : String
deriving DecidableEq, Repr

/-- Mirrors `newError(code, reason)`. -/
def newError (code : ErrorCode) (reason : String) : QError := ⟨code, reason⟩

/-- Modelled from the spec: `errFlowControl` is defined in a source file not
provided; it is the flow-control violation error of section 4.5. -/
def errFlowControl : QError := newError .flowControlError "flow control violation"

/-- Modelled from the spec: `errInvalidToken` is defined in a source file not
provided; it is the invalid-token failure of section 4.2 (Retry). -/
def errInvalidToken : QError := newError .invalidToken "invalid token"

/-- The three packet number spaces (`packetSpaceInitial`,
`packetSpaceHandshake`, `packetSpaceApplication`). -/
inductive PacketSpace where
  | packetSpaceInitial
  | packetSpaceHandshake
  | packetSpaceApplication
deriving DecidableEq, Repr

/-- A triple indexed by `PacketSpace`, mirroring the Go array
`[packetSpaceCount]T`. -/
structure SpaceArray (α : Type) where
  spInitial : α
  spHandshake : α
  spApplication : α
deriving DecidableEq, Repr

def SpaceArray.get {α : Type} (a : SpaceArray α) : PacketSpace → α
  | .packetSpaceInitial => a.spInitial
  | .packetSpaceHandshake => a.spHandshake
  | .packetSpaceApplication => a.spApplication

def SpaceArray.set {α : Type} (a : SpaceArray α) : PacketSpace → α → SpaceArray α
  | .packetSpaceInitial, x => { a with spInitial := x }
  | .packetSpaceHandshake, x => { a with spHandshake := x }
  | .packetSpaceApplication, x => { a with spApplication := x }

/-- Connection states (`connectionState`), in declaration order. -/
inductive ConnectionState where
  | stateAttempted
  | stateHandshake
  | stateActive
  | stateDraining
  | stateClosed
deriving DecidableEq, Repr

/-- Numeric rank of a connection state; the Go code compares states with
`<` and `>=` on the underlying `uint8`. -/
def ConnectionState.idx : ConnectionState → Nat
  | .stateAttempted => 0
  | .stateHandshake => 1
  | .stateActive => 2
  | .stateDraining => 3
  | .stateClosed => 4

/-- Modelled from the spec: QUIC variable-length integer encoded size
(section 4.1, 2-bit length prefix giving 1/2/4/8 bytes). -/
def varintLen (n : Nat) : Nat :=
  if n < 64 then 1 else if n < 16384 then 2 else if n < 1073741824 then 4 else 8

/-- Maximum connection ID length (20 bytes, spec glossary). -/
def MaxCIDLength : Nat := 20

/-- Connection- or stream-level flow controller.  Modelled from the spec
(section 3 F and 4.5): paired counters sent/max-send and received/max-recv
plus the pending grant `maxRecvNext`; the source file is not provided. -/
structure FlowControl where
  recv : Nat
  maxRecv : Nat
  maxRecvNext : Nat
  sent : Nat
  maxSend : Nat
deriving DecidableEq, Repr

/-- Modelled from the spec: `flow.init(maxRecv, maxSend)`. -/
def FlowControl.initFlow (maxRecv maxSend : Nat) : FlowControl :=
  { recv := 0, maxRecv := maxRecv, maxRecvNext := maxRecv, sent := 0, maxSend := maxSend }

/-- Modelled from the spec: `canRecv() = max-recv − received` (section 4.5). -/
def FlowControl.canRecv (f : FlowControl) : Nat := f.maxRecv - f.recv

/-- Modelled from the spec: `canSend() = max-send − sent` (section 4.5). -/
def FlowControl.canSend (f : FlowControl) : Nat := f.maxSend - f.sent

/-- Modelled from the spec: `addRecv` adds to the cumulative received
counter (section 4.5). -/
def FlowControl.addRecv (f : FlowControl) (n : Nat) : FlowControl :=
  { f with recv := f.recv + n }

/-- Modelled from the spec: `addSend` adds to the cumulative sent counter. -/
def FlowControl.addSend (f : FlowControl) (n : Nat) : FlowControl :=
  { f with sent := f.sent + n }

/-- Modelled from the spec: incoming MAX_DATA raises max-send, lower values
ignored (strictly monotone, section 4.5). -/
def FlowControl.setMaxSend (f : FlowControl) (n : Nat) : FlowControl :=
  if f.maxSend < n then { f with maxSend := n } else f

/-- Modelled from the spec: window-update hysteresis predicate (section 4.5);
the exact watermark is implementation-chosen, abstracted here as "a larger
grant is pending". -/
def FlowControl.shouldUpdateMaxRecv (f : FlowControl) : Bool :=
  f.maxRecv < f.maxRecvNext

/-- Modelled from the spec: committing the pending grant after a MAX_DATA or
MAX_STREAM_DATA frame was queued. -/
def FlowControl.commitMaxRecv (f : FlowControl) : FlowControl :=
  { f with maxRecv := f.maxRecvNext }

/-- Receive-side reassembly buffer of a stream or CRYPTO substream.
Modelled from the spec (section 4.4 receive side): chunks are recorded with
their offset and FIN flag, the final size is set once and immutable, and
final-size monotonicity is enforced.  The source file is not provided. -/
structure RecvBuf where
  chunks : List (List Nat × Nat × Bool)
  maxOffsetSeen : Nat
  finalSize : Option Nat
  wasReset : Bool
deriving DecidableEq, Repr

def emptyRecvBuf : RecvBuf := { chunks := [], maxOffsetSeen := 0, finalSize := none, wasReset := false }

/-- Modelled from the spec: merge a chunk into the buffer, failing with
FINAL_SIZE_ERROR on data past a declared FIN or a FIN below existing data
(section 4.4). -/
def RecvBuf.push (rb : RecvBuf) (data : List Nat) (offset : Nat) (fin : Bool) : Except QError RecvBuf :=
  match rb.finalSize with
  | some fs =>
    if fs < offset + data.length ∨ (fin = true ∧ offset + data.length ≠ fs) then
      .error (newError .finalSizeError "final size")
    else
      .ok { rb with chunks := rb.chunks ++ [(data, offset, fin)],
                    maxOffsetSeen := max rb.maxOffsetSeen (offset + data.length) }
  | none =>
    if fin = true ∧ offset + data.length < rb.maxOffsetSeen then
      .error (newError .finalSizeError "final size")
    else
      .ok { rb with chunks := rb.chunks ++ [(data, offset, fin)],
                    maxOffsetSeen := max rb.maxOffsetSeen (offset + data.length),
                    finalSize := if fin then some (offset + data.length) else rb.finalSize }

/-- Modelled from the spec: `recv.reset(finalSize)` records the reset and
returns how many bytes of connection credit the declared final size still
consumes beyond what was already received (section 4.4 and scenario 5);
fails with FINAL_SIZE_ERROR when the final size contradicts received data
or a previously declared final size. -/
def RecvBuf.reset (rb : RecvBuf) (finalSize : Nat) : Except QError (Nat × RecvBuf) :=
  if finalSize < rb.maxOffsetSeen then .error (newError .finalSizeError "final size in reset")
  else
    match rb.finalSize with
    | some fs =>
      if fs ≠ finalSize then .error (newError .finalSizeError "final size in reset")
      else .ok (finalSize - rb.maxOffsetSeen, { rb with wasReset := true })
    | none =>
      .ok (finalSize - rb.maxOffsetSeen,
           { rb with finalSize := some finalSize, wasReset := true })

/-- Send-side buffer of a stream or CRYPTO substream.  Modelled from the
spec (section 4.4 send side): a queue of pending ranges, the set of
in-flight (sent but unacked) ranges, and whether FIN was sent.  The source
file is not provided. -/
structure SendBuf where
  ranges : List (List Nat × Nat × Bool)
  unacked : List (Nat × Nat)
  finSent : Bool
deriving DecidableEq, Repr

def emptySendBuf : SendBuf := { ranges := [], unacked := [], finSent := false }

/-- Modelled from the spec: `push(data, offset, fin)` enqueues a range for
(re)transmission (section 4.4). -/
def SendBuf.push (sb : SendBuf) (data : List Nat) (offset : Nat) (fin : Bool) : SendBuf :=
  { sb with ranges := sb.ranges ++ [(data, offset, fin)] }

/-- Modelled from the spec: `popSend(maxLen)` returns the next eligible
contiguous chunk of at most `maxLen` bytes and records it in flight
(section 4.4). -/
def SendBuf.popSend (sb : SendBuf) (maxLen : Nat) : (List Nat × Nat × Bool) × SendBuf :=
  if maxLen = 0 then (([], 0, false), sb)
  else
    match sb.ranges with
    | [] => (([], 0, false), sb)
    | (data, off, fin) :: rest =>
      if data.length ≤ maxLen then
        ((data, off, fin),
         { sb with ranges := rest, unacked := sb.unacked ++ [(off, data.length)],
                   finSent := sb.finSent || fin })
      else
        ((data.take maxLen, off, false),
         { sb with ranges := (data.drop maxLen, off + maxLen, fin) :: rest,
                   unacked := sb.unacked ++ [(off, maxLen)] })

/-- Modelled from the spec: `ack(offset, len)` removes the corresponding
in-flight range (section 4.4). -/
def SendBuf.ack (sb : SendBuf) (offset len : Nat) : SendBuf :=
  { sb with unacked := sb.unacked.filter (fun r => r ≠ (offset, len)) }

/-- Modelled from the spec: a stream send side is complete when its FIN was
sent and everything is acked (section 4.4). -/
def SendBuf.complete (sb : SendBuf) : Bool :=
  sb.finSent && sb.ranges.isEmpty && sb.unacked.isEmpty

/-- The CRYPTO substream of a packet number space (send and receive
reassembly).  Modelled from the spec (section 3 C). -/
structure CryptoStream where
  send : SendBuf
  recv : RecvBuf
deriving DecidableEq, Repr

def emptyCryptoStream : CryptoStream := { send := emptySendBuf, recv := emptyRecvBuf }

/-- Stream-ID initiator rule.  Modelled from the spec (section 4.4): bit 0
of the ID is 0 for client-initiated and 1 for server-initiated streams, so
a stream is local iff the parity matches the endpoint's role.  The source
file defining `isStreamLocal` is not provided. -/
def isStreamLocal (id : Nat) (isClient : Bool) : Bool :=
  (id % 2 == 0) == isClient

/-- Stream-ID directionality rule.  Modelled from the spec (section 4.4):
bit 1 of the ID is 0 for bidirectional and 1 for unidirectional streams. -/
def isStreamBidi (id : Nat) : Bool :=
  id % 4 < 2

/-- A stream: receive side, send side, per-stream flow controller and the
pending MAX_STREAM_DATA flag.  Modelled from the spec (section 3 E); the
source file is not provided.  The Go back-pointer `connFlow` is realized
by the connection updating its own flow controller directly. -/
structure Stream where
  recv : RecvBuf
  send : SendBuf
  flow : FlowControl
  updateMaxData : Bool
deriving DecidableEq, Repr

def defaultStream : Stream :=
  { recv := emptyRecvBuf, send := emptySendBuf,
    flow := FlowControl.initFlow 0 0, updateMaxData := false }

/-- Modelled from the spec: stream receive accepts a chunk after the
stream-level flow check (received bytes measured by highest offset must
stay within max-recv, section 4.5) and the reassembly insert. -/
def Stream.pushRecv (st : Stream) (data : List Nat) (offset : Nat) (fin : Bool) : Except QError Stream :=
  if st.flow.maxRecv < offset + data.length then .error errFlowControl
  else
    match st.recv.push data offset fin with
    | .error e => .error e
    | .ok rb =>
      .ok { st with recv := rb,
                    flow := { st.flow with recv := max st.flow.recv (offset + data.length) } }

/-- Modelled from the spec: `popSend` is capped by the remaining stream
send credit and records the bytes as sent (section 4.4). -/
def Stream.popSend (st : Stream) (left : Nat) : (List Nat × Nat × Bool) × Stream :=
  let limit := min left st.flow.canSend
  let r := st.send.popSend limit
  (r.1, { st with send := r.2,
                  flow := { st.flow with sent := st.flow.sent + r.1.1.length } })

/-- Modelled from the spec: acking a MAX_STREAM_DATA clears the stream's
pending-update flag (`st.ackMaxData()` in the source). -/
def Stream.ackMaxData (st : Stream) : Stream :=
  { st with updateMaxData := false }

/-- The stream map: streams by ID plus the stream-count limits.  Modelled
from the spec (section 3 E); the source file is not provided. -/
structure StreamMap where
  streams : List (Nat × Stream)
  maxStreamsBidi : Nat
  maxStreamsUni : Nat
  peerMaxStreamsBidi : Nat
  peerMaxStreamsUni : Nat
deriving DecidableEq, Repr

/-- Modelled from the spec: `streams.init(maxBidi, maxUni)` with the
locally granted limits. -/
def StreamMap.initMap (maxBidi maxUni : Nat) : StreamMap :=
  { streams := [], maxStreamsBidi := maxBidi, maxStreamsUni := maxUni,
    peerMaxStreamsBidi := 0, peerMaxStreamsUni := 0 }

def StreamMap.get (m : StreamMap) (id : Nat) : Option Stream :=
  (m.streams.find? (fun p => p.1 == id)).map (fun p => p.2)

def StreamMap.setList : List (Nat × Stream) → Nat → Stream → List (Nat × Stream)
  | [], id, st => [(id, st)]
  | (k, v) :: rest, id, st =>
    if k = id then (k, st) :: rest else (k, v) :: StreamMap.setList rest id st

def StreamMap.set (m : StreamMap) (id : Nat) (st : Stream) : StreamMap :=
  { m with streams := StreamMap.setList m.streams id st }

/-- Modelled from the spec: stream creation checks the stream-count limit
(STREAM_LIMIT_ERROR beyond the granted MAX_STREAMS, section 3 E) and
inserts a fresh stream. -/
def StreamMap.create (m : StreamMap) (id : Nat) (isLocal bidi : Bool) : Except QError StreamMap :=
  let limit := if isLocal then (if bidi then m.peerMaxStreamsBidi else m.peerMaxStreamsUni)
               else (if bidi then m.maxStreamsBidi else m.maxStreamsUni)
  if limit < id / 4 + 1 then .error (newError .streamLimitError "stream limit")
  else .ok (m.set id defaultStream)

/-- Modelled from the spec: peer MAX_STREAMS limits only ever grow. -/
def StreamMap.setPeerMaxStreamsBidi (m : StreamMap) (n : Nat) : StreamMap :=
  if m.peerMaxStreamsBidi < n then { m with peerMaxStreamsBidi := n } else m

/-- Modelled from the spec: peer MAX_STREAMS limits only ever grow. -/
def StreamMap.setPeerMaxStreamsUni (m : StreamMap) (n : Nat) : StreamMap :=
  if m.peerMaxStreamsUni < n then { m with peerMaxStreamsUni := n } else m

/-- The frame union, at the decoded level (the wire codec of section 4.1 is a
source file that is not provided; frames enter the model already decoded). -/
inductive Frame where
  | padding (length : Nat)
  | ping
  | ack (largestAck : Nat) (ackDelay : Nat) (ranges : List (Nat × Nat))
  | resetStream (streamID : Nat) (errorCode : Nat) (finalSize : Nat)
  | stopSending (streamID : Nat) (errorCode : Nat)
  | crypto (offset : Nat) (data : List Nat)
  | newToken (token : List Nat)
  | stream (streamID : Nat) (offset : Nat) (fin : Bool) (data : List Nat)
  | maxData (maximumData : Nat)
  | maxStreamData (streamID : Nat) (maximumData : Nat)
  | maxStreams (bidi : Bool) (maximumStreams : Nat)
  | dataBlocked (dataLimit : Nat)
  | streamDataBlocked (streamID : Nat) (dataLimit : Nat)
  | streamsBlocked (bidi : Bool) (streamLimit : Nat)
  | connectionClose (application : Bool) (errorCode : Nat) (frameType : Nat) (reasonPhrase : String)
  | handshakeDone
deriving DecidableEq, Repr

/-- Modelled from the spec: a frame is ack-eliciting iff it is not PADDING,
ACK or CONNECTION_CLOSE (section 4.1); `isFrameAckEliciting` lives in the
codec source file, which is not provided. -/
def isFrameAckEliciting : Frame → Bool
  | .padding _ => false
  | .ack _ _ _ => false
  | .connectionClose _ _ _ _ => false
  | _ => true

/-- Modelled from the spec: encoded frame sizes per the QUIC v1 wire layout
(section 4.1); used only for packet-size bookkeeping on the send path. -/
def Frame.encodedLen : Frame → Nat
  | .padding n => n
  | .ping => 1
  | .ack largestAck ackDelay ranges =>
      1 + varintLen largestAck + varintLen ackDelay + varintLen ranges.length + 2 * ranges.length
  | .resetStream id ec fs => 1 + varintLen id + varintLen ec + varintLen fs
  | .stopSending id ec => 1 + varintLen id + varintLen ec
  | .crypto off data => 1 + varintLen off + varintLen data.length + data.length
  | .newToken tok => 1 + varintLen tok.length + tok.length
  | .stream id off _ data => 1 + varintLen id + varintLen off + varintLen data.length + data.length
  | .maxData n => 1 + varintLen n
  | .maxStreamData id n => 1 + varintLen id + varintLen n
  | .maxStreams _ n => 1 + varintLen n
  | .dataBlocked n => 1 + varintLen n
  | .streamDataBlocked id n => 1 + varintLen id + varintLen n
  | .streamsBlocked _ n => 1 + varintLen n
  | .connectionClose app ec ft rp =>
      1 + varintLen ec + (if app then 0 else varintLen ft) + varintLen rp.length + rp.length
  | .handshakeDone => 1

/-- The staged `connectionCloseFrame` (field `closeFrame` of the connection). -/
structure ConnectionCloseFrame where
  application : Bool
  errorCode : Nat
  frameType : Nat
  reasonPhrase : String
deriving DecidableEq, Repr

def ConnectionCloseFrame.toFrame (f : ConnectionCloseFrame) : Frame :=
  .connectionClose f.application f.errorCode f.frameType f.reasonPhrase

def ConnectionCloseFrame.encodedLen (f : ConnectionCloseFrame) : Nat :=
  f.toFrame.encodedLen

/-- Transport parameters (`Parameters`), the fields the core reads. -/
structure Parameters where
  InitialMaxData : Nat
  InitialMaxStreamDataBidiLocal : Nat
  InitialMaxStreamDataBidiRemote : Nat
  InitialMaxStreamDataUni : Nat
  InitialMaxStreamsBidi : Nat
  InitialMaxStreamsUni : Nat
  MaxIdleTimeout : Int
  MaxUDPPayloadSize : Nat
  AckDelayExponent : Nat
  MaxAckDelay : Int
  StatelessResetToken : List Nat
  OriginalDestinationCID : List Nat
  RetrySourceCID : List Nat
  InitialSourceCID : List Nat
deriving DecidableEq, Repr

/-- Connection configuration (`Config`): version and transport parameters.
The opaque TLS handle is out of scope; its RNG and clock are injected as
explicit arguments where the core uses them. -/
structure Config where
  Version : Nat
  Params : Parameters
deriving DecidableEq, Repr

/-- The TLS handshake adapter.  Modelled from the spec (section 4.6): the
TLS engine is a black box; the model records whether the session was
reset, the local transport parameters handed to it, and the externally
determined outcome of driving it (error, completion, peer parameters). -/
structure TLSHandshake where
  wasReset : Bool
  transportParams : Option Parameters
  driveError : Option QError
  complete : Bool
  peerParams : Option Parameters
deriving DecidableEq, Repr

/-- Modelled from the spec: a freshly initialized TLS session. -/
def TLSHandshake.freshHandshake : TLSHandshake :=
  { wasReset := false, transportParams := none, driveError := none,
    complete := false, peerParams := none }

/-- Modelled from the spec: `handshake.reset()` discards the TLS session
state. -/
def TLSHandshake.reset (_h : TLSHandshake) : TLSHandshake :=
  { TLSHandshake.freshHandshake with wasReset := true }

/-- Modelled from the spec: `handshake.setTransportParams(p)`. -/
def TLSHandshake.setTransportParams (h : TLSHandshake) (p : Parameters) : TLSHandshake :=
  { h with transportParams := some p }

/-- Modelled from the spec: driving the black-box TLS engine either fails
with the recorded error or leaves the recorded session state. -/
def TLSHandshake.doHandshake (h : TLSHandshake) : Except QError TLSHandshake :=
  match h.driveError with
  | some e => .error e
  | none => .ok h

/-- A sent packet as recorded by loss recovery (spec section 3 G). -/
structure SentPacket where
  packetNumber : Nat
  timeSent : Int
  size : Nat
  ackEliciting : Bool
  frames : List Frame
deriving DecidableEq, Repr

/-- Loss recovery state.  Modelled from the spec (section 3 G and 4.9); the
source file is not provided.  RTT estimation and PTO computation are
abstracted into the `pto` field; per-space in-flight, acked-pending and
lost-frame lists carry what the connection core consumes. -/
structure LossRecovery where
  lossDetectionTimer : Int
  maxAckDelay : Int
  pto : Int
  probes : Nat
  inFlight : SpaceArray (List SentPacket)
  acked : SpaceArray (List Frame)
  lost : SpaceArray (List Frame)
deriving DecidableEq, Repr

def LossRecovery.initRecovery : LossRecovery :=
  { lossDetectionTimer := 0, maxAckDelay := 0, pto := 0, probes := 0,
    inFlight := ⟨[], [], []⟩, acked := ⟨[], [], []⟩, lost := ⟨[], [], []⟩ }

/-- Modelled from the spec: the probe timeout derived from the RTT
estimator (section 4.9), abstracted as a recovery-internal value. -/
def LossRecovery.probeTimeout (r : LossRecovery) : Int := r.pto

/-- Modelled from the spec: dropping a space clears its unacked in-flight
data so nothing from it is ever retransmitted (sections 4.3 and 8). -/
def LossRecovery.dropUnackedData (r : LossRecovery) (space : PacketSpace) : LossRecovery :=
  { r with inFlight := r.inFlight.set space [],
           acked := r.acked.set space [],
           lost := r.lost.set space [] }

def pnInRanges (pn : Nat) (ranges : List (Nat × Nat)) : Bool :=
  ranges.any (fun r => r.1 ≤ pn && pn ≤ r.2)

/-- Modelled from the spec: on ACK receipt the acked in-flight packets move
to the acked-pending list for the core to drain; RTT bookkeeping is
recovery-internal and not observed by the connection core (section 4.9). -/
def LossRecovery.onAckReceived (r : LossRecovery) (ranges : List (Nat × Nat))
    (_ackDelay : Int) (space : PacketSpace) (_now : Int) : LossRecovery :=
  let fl := r.inFlight.get space
  let ackedNow := fl.filter (fun p => pnInRanges p.packetNumber ranges)
  let rest := fl.filter (fun p => !pnInRanges p.packetNumber ranges)
  { r with inFlight := r.inFlight.set space rest,
           acked := r.acked.set space (r.acked.get space ++ (ackedNow.map SentPacket.frames).flatten) }

/-- Modelled from the spec: on packet sent, record it in flight and re-arm
the loss-detection timer for ack-eliciting packets (section 4.9). -/
def LossRecovery.recordPacketSent (r : LossRecovery) (p : SentPacket) (space : PacketSpace) : LossRecovery :=
  { r with inFlight := r.inFlight.set space (r.inFlight.get space ++ [p]),
           lossDetectionTimer := if p.ackEliciting then p.timeSent + r.pto else r.lossDetectionTimer }

/-- A packet number space.  Modelled from the spec (section 3 C and 4.3);
the source file is not provided.  Key material is opaque (`List Nat`),
`none` meaning absent. -/
structure PacketNumberSpace where
  opener : Option (List Nat)
  sealer : Option (List Nat)
  nextPacketNumber : Nat
  largestRecvPacket : Nat
  largestRecvPacketTime : Int
  recvPackets : List Nat
  recvPacketNeedAck : List Nat
  ackElicited : Bool
  firstPacketAcked : Bool
  cryptoStream : CryptoStream
deriving DecidableEq, Repr

/-- Modelled from the spec: a freshly initialized space (`init()`). -/
def PacketNumberSpace.initSpace : PacketNumberSpace :=
  { opener := none, sealer := none, nextPacketNumber := 0,
    largestRecvPacket := 0, largestRecvPacketTime := 0,
    recvPackets := [], recvPacketNeedAck := [],
    ackElicited := false, firstPacketAcked := false,
    cryptoStream := emptyCryptoStream }

/-- `canDecrypt()` is true iff the opener is present (spec section 4.3). -/
def PacketNumberSpace.canDecrypt (sp : PacketNumberSpace) : Bool := sp.opener.isSome

/-- `canEncrypt()` is true iff the sealer is present (spec section 4.3). -/
def PacketNumberSpace.canEncrypt (sp : PacketNumberSpace) : Bool := sp.sealer.isSome

/-- Modelled from the spec: duplicate detection against the set of received
packet numbers (section 4.3). -/
def PacketNumberSpace.isPacketReceived (sp : PacketNumberSpace) (pn : Nat) : Bool :=
  sp.recvPackets.contains pn

/-- Modelled from the spec: record a received packet number as received and
needing ACK, and track the largest received packet and its time. -/
def PacketNumberSpace.onPacketReceived (sp : PacketNumberSpace) (pn : Nat) (now : Int) : PacketNumberSpace :=
  { sp with recvPackets := sp.recvPackets ++ [pn],
            recvPacketNeedAck := sp.recvPacketNeedAck ++ [pn],
            largestRecvPacket := max sp.largestRecvPacket pn,
            largestRecvPacketTime :=
              if sp.largestRecvPacket ≤ pn then now else sp.largestRecvPacketTime }

/-- Modelled from the spec: `reset()` (used after Version Negotiation and
Retry) clears the packet-number and CRYPTO state to send another Initial,
keeping whatever keys are installed. -/
def PacketNumberSpace.reset (sp : PacketNumberSpace) : PacketNumberSpace :=
  { PacketNumberSpace.initSpace with opener := sp.opener, sealer := sp.sealer }

/-- Modelled from the spec: `drop()` zeroizes the keys and discards all
per-space state including the CRYPTO substream (section 4.3). -/
def PacketNumberSpace.drop (_sp : PacketNumberSpace) : PacketNumberSpace :=
  PacketNumberSpace.initSpace

/-- Modelled from the spec: Initial secrets are derived deterministically
from the chosen connection ID (section 4.3); the HKDF chain itself is out
of scope, so the derived key material is represented by tagging the CID. -/
def initialClientKey (cid : List Nat) : List Nat := 0 :: cid

/-- Modelled from the spec: the server-side half of the Initial secrets. -/
def initialServerKey (cid : List Nat) : List Nat := 1 :: cid

/-- Application events delivered through `Events` (spec section 6). -/
inductive Event where
  | streamRecv (id : Nat)
  | streamReset (id : Nat) (errorCode : Nat)
  | streamStop (id : Nat) (errorCode : Nat)
  | streamComplete (id : Nat)
deriving DecidableEq, Repr

/-- An outgoing packet under construction (`outgoingPacket`). -/
structure OutgoingPacket where
  packetNumber : Nat
  timeSent : Int
  frames : List Frame
  ackEliciting : Bool
  size : Nat
deriving DecidableEq, Repr

/-- Mirrors `newOutgoingPacket(pn, now)`. -/
def newOutgoingPacket (pn : Nat) (now : Int) : OutgoingPacket :=
  { packetNumber := pn, timeSent := now, frames := [], ackEliciting := false, size := 0 }

/-- Modelled from the spec: adding a frame records it and marks the packet
ack-eliciting when the frame is (section 4.9). -/
def OutgoingPacket.addFrame (op : OutgoingPacket) (f : Frame) : OutgoingPacket :=
  { op with frames := op.frames ++ [f],
            ackEliciting := op.ackEliciting || isFrameAckEliciting f }

/-- A decoded Retry packet: the header CIDs and the token.  The byte-level
codec and the integrity-tag verification are external; verification
outcome enters `recvPacketRetry` as an explicit argument. -/
structure RetryPacket where
  dcid : List Nat
  scid : List Nat
  token : List Nat
deriving DecidableEq, Repr

/-- A received packet at the decoded level: header CIDs, packet number and
the decrypted frame list.  Header/payload byte codecs are external. -/
structure IncomingPacket where
  dcid : List Nat
  scid : List Nat
  packetNumber : Nat
  frames : List Frame
deriving DecidableEq, Repr

/-- The QUIC connection (`Conn`).  The log-event callback is omitted
(logging is observational only). -/
structure Conn where
  isClient : Bool
  version : Nat
  scid : List Nat
  dcid : List Nat
  odcid : List Nat
  rscid : List Nat
  token : List Nat
  packetNumberSpaces : SpaceArray PacketNumberSpace
  streams : StreamMap
  localParams : Parameters
  peerParams : Parameters
  handshake : TLSHandshake
  recovery : LossRecovery
  flow : FlowControl
  state : ConnectionState
  gotPeerCID : Bool
  didRetry : Bool
  didVersionNegotiation : Bool
  ackElicitingSent : Bool
  handshakeConfirmed : Bool
  derivedInitialSecrets : Bool
  updateMaxData : Bool
  closeFrame : Option ConnectionCloseFrame
  idleTimer : Int
  drainingTimer : Int
  events : List Event
deriving DecidableEq, Repr

/-- Outcome of ingesting one packet: silently dropped (the source logs and
consumes the bytes), processed, or failed with a connection-fatal error.
Each constructor carries the connection as the in-place mutations left it. -/
inductive RecvPacketResult where
  | dropped (c : Conn)
  | processed (c : Conn)
  | failed (c : Conn) (e : QError)
deriving DecidableEq, Repr

def RecvPacketResult.connOf : RecvPacketResult → Conn
  | .dropped c => c
  | .processed c => c
  | .failed c _ => c

def RecvPacketResult.isProcessed : RecvPacketResult → Bool
  | .processed _ => true
  | _ => false

/-- Helper mirroring a write through the pointer
`&s.packetNumberSpaces[space]`. -/
def Conn.updateSpace (s : Conn) (space : PacketSpace) (f : PacketNumberSpace → PacketNumberSpace) : Conn :=
  { s with packetNumberSpaces := s.packetNumberSpaces.set space (f (s.packetNumberSpaces.get space)) }

/-- Mirrors `Conn.addEvent`. -/
def Conn.addEvent (s : Conn) (e : Event) : Conn :=
  { s with events := s.events ++ [e] }

/-- Mirrors `Conn.deriveInitialKeyMaterial(cid)`: install the Initial
opener/sealer derived from `cid`, the client sealing with the client half
and opening with the server half, the server the other way around. -/
def Conn.deriveInitialKeyMaterial (s : Conn) (cid : List Nat) : Conn :=
  let sp := s.packetNumberSpaces.get .packetSpaceInitial
  let sp := if s.isClient then
      { sp with opener := some (initialServerKey cid), sealer := some (initialClientKey cid) }
    else
      { sp with opener := some (initialClientKey cid), sealer := some (initialServerKey cid) }
  { s with packetNumberSpaces := s.packetNumberSpaces.set .packetSpaceInitial sp,
           derivedInitialSecrets := true }

/-- Mirrors `Conn.dropPacketSpace(space)`: drop the space's keys and state
and the recovery data for that space. -/
def Conn.dropPacketSpace (s : Conn) (space : PacketSpace) : Conn :=
  let s := s.updateSpace space PacketNumberSpace.drop
  { s with recovery := s.recovery.dropUnackedData space }

/-- Mirrors `Conn.setDraining(now)`: arm the draining timer once, to
now + 3×PTO. -/
def Conn.setDraining (s : Conn) (now : Int) : Conn :=
  if s.drainingTimer = 0 then
    { s with drainingTimer := now + s.recovery.probeTimeout * 3 }
  else s

/-- Mirrors `Conn.Close(app, errCode, reason)`: stage a CONNECTION_CLOSE
once and enter Draining. -/
def Conn.Close (s : Conn) (app : Bool) (errCode : Nat) (reason : String) : Conn :=
  if s.drainingTimer ≠ 0 ∨ s.closeFrame.isSome then s
  else
    { s with closeFrame := some { application := app, errorCode := errCode,
                                  frameType := 0, reasonPhrase := reason },
             state := .stateDraining }

/-- Modelled from the spec: the serving wrapper around the core (not among
the provided sources) turns a connection-fatal error returned by `Write`
into `Close(false, code, reason)`, staging a CONNECTION_CLOSE with the
error's code and entering Draining (section 7, failure class 2). -/
def Conn.stageFatalError (s : Conn) (e : QError) : Conn :=
  s.Close false e.code.wire e.reason

/-- Mirrors `Conn.Timeout()`: the draining deadline if set, else the
loss-detection deadline if set, else the idle deadline if set, as a
clamped duration from `now`; `-1` (disarmed) when Closed or none is set. -/
def Conn.Timeout (s : Conn) (now : Int) : Int :=
  if s.state = .stateClosed then -1
  else if s.drainingTimer ≠ 0 then
    let timeout := s.drainingTimer - now
    if timeout < 0 then 0 else timeout
  else if s.recovery.lossDetectionTimer ≠ 0 then
    let timeout := s.recovery.lossDetectionTimer - now
    if timeout < 0 then 0 else timeout
  else if s.idleTimer ≠ 0 then
    let timeout := s.idleTimer - now
    if timeout < 0 then 0 else timeout
  else -1

/-- Mirrors `Conn.getOrCreateStream(id, local)`: look up the stream, or
create it when the ID's initiator matches, applying the initial flow
limits from the local and peer transport parameters.  Errors leave the
connection (and so the stream map) unchanged. -/
def Conn.getOrCreateStream (s : Conn) (id : Nat) (lcl : Bool) : Conn × Except QError Stream :=
  match s.streams.get id with
  | some st => (s, .ok st)
  | none =>
    if lcl ≠ isStreamLocal id s.isClient then
      (s, .error (newError .streamStateError "invalid type of stream"))
    else
      let bidi := isStreamBidi id
      match s.streams.create id lcl bidi with
      | .error e => (s, .error e)
      | .ok m2 =>
        let maxRecv := if lcl then (if bidi then s.localParams.InitialMaxStreamDataBidiLocal else 0)
                       else (if bidi then s.localParams.InitialMaxStreamDataBidiRemote
                             else s.localParams.InitialMaxStreamDataUni)
        let maxSend := if lcl then (if bidi then s.peerParams.InitialMaxStreamDataBidiRemote
                                    else s.peerParams.InitialMaxStreamDataUni)
                       else (if bidi then s.peerParams.InitialMaxStreamDataBidiLocal else 0)
        let st : Stream := { defaultStream with flow := FlowControl.initFlow maxRecv maxSend }
        ({ s with streams := m2.set id st }, .ok st)

/-- Mirrors `Conn.Stream(id)`: open or create a local stream. -/
def Conn.Stream (s : Conn) (id : Nat) : Conn × Except QError Stream :=
  s.getOrCreateStream id true

/-- Mirrors `newConn(config, scid, odcid, isClient)`.  The RNG is injected:
`rndDcid` stands for the random first destination CID a client draws. -/
def newConn (config : Option Config) (scid odcid : List Nat) (isClient : Bool)
    (rndDcid : List Nat) : Except QError Conn :=
  match config with
  | none => .error (newError .internalError "config required")
  | some config =>
    if MaxCIDLength < scid.length ∨ MaxCIDLength < odcid.length then
      .error (newError .protocolViolation "cid too long")
    else
      let s : Conn :=
        { isClient := isClient, version := config.Version,
          scid := scid, dcid := [], odcid := [], rscid := [], token := [],
          packetNumberSpaces :=
            ⟨PacketNumberSpace.initSpace, PacketNumberSpace.initSpace, PacketNumberSpace.initSpace⟩,
          streams := StreamMap.initMap config.Params.InitialMaxStreamsBidi
                                       config.Params.InitialMaxStreamsUni,
          localParams := config.Params,
          peerParams := { InitialMaxData := 0, InitialMaxStreamDataBidiLocal := 0,
                          InitialMaxStreamDataBidiRemote := 0, InitialMaxStreamDataUni := 0,
                          InitialMaxStreamsBidi := 0, InitialMaxStreamsUni := 0,
                          MaxIdleTimeout := 0, MaxUDPPayloadSize := 0, AckDelayExponent := 3,
                          MaxAckDelay := 0, StatelessResetToken := [],
                          OriginalDestinationCID := [], RetrySourceCID := [], InitialSourceCID := [] },
          handshake := TLSHandshake.freshHandshake,
          recovery := LossRecovery.initRecovery,
          flow := FlowControl.initFlow config.Params.InitialMaxData 0,
          state := .stateAttempted,
          gotPeerCID := false, didRetry := false, didVersionNegotiation := false,
          ackElicitingSent := false, handshakeConfirmed := false,
          derivedInitialSecrets := false, updateMaxData := false,
          closeFrame := none, idleTimer := 0, drainingTimer := 0, events := [] }
      let s := { s with localParams := { s.localParams with InitialSourceCID := s.scid } }
      let s :=
        if odcid ≠ [] then
          { s with odcid := odcid,
                   localParams := { s.localParams with OriginalDestinationCID := odcid,
                                                       RetrySourceCID := s.scid },
                   didRetry := true }
        else
          { s with localParams := { s.localParams with OriginalDestinationCID := [],
                                                       RetrySourceCID := [] } }
      let s :=
        if isClient then
          let s := { s with localParams := { s.localParams with StatelessResetToken := [] } }
          let s := { s with dcid := rndDcid }
          s.deriveInitialKeyMaterial s.dcid
        else s
      .ok { s with handshake := s.handshake.setTransportParams s.localParams }

/-- Mirrors `Connect(scid, config)` (client). -/
def Connect (scid : List Nat) (config : Option Config) (rndDcid : List Nat) : Except QError Conn :=
  newConn config scid [] true rndDcid

/-- Mirrors `Accept(scid, odcid, config)` (server). -/
def Accept (scid odcid : List Nat) (config : Option Config) : Except QError Conn :=
  newConn config scid odcid false []

/-- Mirrors `Conn.validatePeerTransportParams(p)`. -/
def Conn.validatePeerTransportParams (s : Conn) (p : Option Parameters) : Option QError :=
  match p with
  | none => some (newError .transportParameterError "")
  | some p =>
    if p.InitialSourceCID = [] ∨ p.InitialSourceCID ≠ s.dcid then
      some (newError .transportParameterError "initial source cid")
    else if s.isClient then
      if p.OriginalDestinationCID ≠ s.odcid then
        some (newError .transportParameterError "original destination cid")
      else if s.rscid ≠ [] ∧ p.RetrySourceCID ≠ s.rscid then
        some (newError .transportParameterError "retry source cid")
      else none
    else
      if p.OriginalDestinationCID ≠ [] then
        some (newError .transportParameterError "original destination cid")
      else if p.StatelessResetToken ≠ [] then
        some (newError .transportParameterError "reset token")
      else if s.rscid ≠ [] ∧ p.RetrySourceCID ≠ s.rscid then
        some (newError .transportParameterError "retry source cid")
      else none

/-- Mirrors `Conn.doHandshake()`: drive the TLS engine below Active; on
completion validate the peer transport parameters and apply them, then
move to Active. -/
def Conn.doHandshake (s : Conn) : Conn × Option QError :=
  if ConnectionState.idx .stateActive ≤ s.state.idx then (s, none)
  else
    match s.handshake.doHandshake with
    | .error e => (s, some e)
    | .ok h =>
      let s := { s with handshake := h }
      if h.complete then
        match s.validatePeerTransportParams h.peerParams with
        | some e => (s, some e)
        | none =>
          match h.peerParams with
          | none => (s, some (newError .transportParameterError ""))
          | some ps =>
            ({ s with flow := s.flow.setMaxSend ps.InitialMaxData,
                      streams := (s.streams.setPeerMaxStreamsBidi ps.InitialMaxStreamsBidi).setPeerMaxStreamsUni
                                   ps.InitialMaxStreamsUni,
                      recovery := { s.recovery with maxAckDelay := ps.MaxAckDelay },
                      peerParams := ps,
                      state := .stateActive }, none)
      else (s, none)

/-- Mirrors `Conn.recvFrameAck` at the decoded level: an empty range set
stands for the nil `toRangeSet` result; recovery is notified, then the
first-ACK handshake-confirmation logic runs. -/
def Conn.recvFrameAck (s : Conn) (_largestAck : Nat) (ackDelayRaw : Nat) (ranges : List (Nat × Nat))
    (space : PacketSpace) (now : Int) : Conn × Option QError :=
  if ranges = [] then (s, some (newError .frameEncodingError "invalid ack ranges"))
  else
    let ackDelay : Int := (((1 <<< s.peerParams.AckDelayExponent) * ackDelayRaw : Nat) : Int) * 1000
    let s := { s with recovery := s.recovery.onAckReceived ranges ackDelay space now }
    if (s.packetNumberSpaces.get space).firstPacketAcked = false then
      let s := s.updateSpace space (fun sp => { sp with firstPacketAcked := true })
      if space = .packetSpaceApplication ∧ s.state = .stateActive then
        let s := s.dropPacketSpace .packetSpaceHandshake
        if s.isClient = true ∧ s.handshakeConfirmed = false then
          ({ s with handshakeConfirmed := true }, none)
        else (s, none)
      else (s, none)
    else (s, none)

/-- Mirrors `Conn.recvFrameResetStream`. -/
def Conn.recvFrameResetStream (s : Conn) (id errorCode finalSize : Nat) : Conn × Option QError :=
  let lcl := isStreamLocal id s.isClient
  let bidi := isStreamBidi id
  if lcl = true ∧ bidi = false then
    (s, some (newError .streamStateError "reset stream"))
  else
    match s.getOrCreateStream id false with
    | (s1, .error e) => (s1, some e)
    | (s1, .ok st) =>
      match st.recv.reset finalSize with
      | .error e => (s1, some e)
      | .ok (mayRecv, rb) =>
        let s2 := { s1 with streams := s1.streams.set id { st with recv := rb } }
        if s2.flow.canRecv < mayRecv then (s2, some errFlowControl)
        else
          let s3 := { s2 with flow := s2.flow.addRecv mayRecv }
          (s3.addEvent (.streamReset id errorCode), none)

/-- Mirrors `Conn.recvFrameStopSending`. -/
def Conn.recvFrameStopSending (s : Conn) (id errorCode : Nat) : Conn × Option QError :=
  let lcl := isStreamLocal id s.isClient
  if lcl = true ∧ s.streams.get id = none then
    (s, some (newError .streamStateError "stop sending stream"))
  else if isStreamBidi id = false then
    (s, some (newError .streamStateError "stop sending stream"))
  else
    (s.addEvent (.streamStop id errorCode), none)

/-- Mirrors `Conn.recvFrameCrypto`: push the data into the space's CRYPTO
receive substream, then drive the handshake. -/
def Conn.recvFrameCrypto (s : Conn) (offset : Nat) (data : List Nat)
    (space : PacketSpace) : Conn × Option QError :=
  match (s.packetNumberSpaces.get space).cryptoStream.recv.push data offset false with
  | .error e => (s, some e)
  | .ok rb =>
    let s := s.updateSpace space (fun sp => { sp with cryptoStream := { sp.cryptoStream with recv := rb } })
    s.doHandshake

/-- Mirrors `Conn.recvFrameStream`: police the stream direction, check the
connection-level flow credit against the chunk length, then create the
stream if needed, buffer the data and account for it. -/
def Conn.recvFrameStream (s : Conn) (id offset : Nat) (fin : Bool) (data : List Nat) : Conn × Option QError :=
  let lcl := isStreamLocal id s.isClient
  let bidi := isStreamBidi id
  if lcl = true ∧ bidi = false then
    (s, some (newError .streamStateError "writing not permitted"))
  else if s.flow.canRecv < data.length then
    (s, some errFlowControl)
  else
    match s.getOrCreateStream id false with
    | (s1, .error e) => (s1, some e)
    | (s1, .ok st) =>
      match st.pushRecv data offset fin with
      | .error e => (s1, some e)
      | .ok st2 =>
        let s2 := { s1 with streams := s1.streams.set id st2 }
        let s3 := { s2 with flow := s2.flow.addRecv data.length }
        (s3.addEvent (.streamRecv id), none)

/-- Mirrors `Conn.recvFrameMaxStreamData`. -/
def Conn.recvFrameMaxStreamData (s : Conn) (id m : Nat) : Conn × Option QError :=
  match s.getOrCreateStream id false with
  | (s1, .error e) => (s1, some e)
  | (s1, .ok st) =>
    ({ s1 with streams := s1.streams.set id { st with flow := st.flow.setMaxSend m } }, none)

/-- Mirrors `Conn.recvFrameHandshakeDone`: server side fails with
PROTOCOL_VIOLATION; an active unconfirmed client drops the Handshake
space and marks the handshake confirmed. -/
def Conn.recvFrameHandshakeDone (s : Conn) : Conn × Option QError :=
  if s.isClient = false then
    (s, some (newError .protocolViolation "unexpected handshake done frame"))
  else if s.state = .stateActive ∧ s.handshakeConfirmed = false then
    ({ s.dropPacketSpace .packetSpaceHandshake with handshakeConfirmed := true }, none)
  else (s, none)

/-- Per-frame dispatch of `Conn.recvFrames` (the `switch` over frame
types), at the decoded level. -/
def Conn.recvFrame (s : Conn) (f : Frame) (space : PacketSpace) (now : Int) : Conn × Option QError :=
  match f with
  | .padding _ => (s, none)
  | .ping => (s, none)
  | .ack largestAck ackDelay ranges => s.recvFrameAck largestAck ackDelay ranges space now
  | .resetStream id ec fs => s.recvFrameResetStream id ec fs
  | .stopSending id ec => s.recvFrameStopSending id ec
  | .crypto off data => s.recvFrameCrypto off data space
  | .newToken _ => (s, none)
  | .stream id off fin data => s.recvFrameStream id off fin data
  | .maxData m => ({ s with flow := s.flow.setMaxSend m }, none)
  | .maxStreamData id m => s.recvFrameMaxStreamData id m
  | .maxStreams bidi m =>
      (if bidi then { s with streams := s.streams.setPeerMaxStreamsBidi m }
       else { s with streams := s.streams.setPeerMaxStreamsUni m }, none)
  | .dataBlocked _ => (s, none)
  | .streamDataBlocked _ _ => (s, none)
  | .streamsBlocked _ _ => (s, none)
  | .connectionClose _ _ _ _ => (({ s with state := .stateDraining }).setDraining now, none)
  | .handshakeDone => s.recvFrameHandshakeDone

/-- The frame loop of `Conn.recvFrames`: process frames in order, stop on
the first error, and accumulate whether any frame was ack-eliciting. -/
def Conn.recvFramesLoop (s : Conn) (frames : List Frame) (space : PacketSpace) (now : Int)
    (ackElicited : Bool) : Conn × Option QError × Bool :=
  match frames with
  | [] => (s, none, ackElicited)
  | f :: rest =>
    match Conn.recvFrame s f space now with
    | (s1, some e) => (s1, some e, ackElicited)
    | (s1, none) =>
      Conn.recvFramesLoop s1 rest space now (ackElicited || isFrameAckEliciting f)

/-- Mirrors `Conn.recvFrames`: after all frames processed, mark the space
ack-elicited iff some frame other than PADDING/ACK/CONNECTION_CLOSE was
present. -/
def Conn.recvFrames (s : Conn) (frames : List Frame) (space : PacketSpace) (now : Int) : Conn × Option QError :=
  match Conn.recvFramesLoop s frames space now false with
  | (s1, some e, _) => (s1, some e)
  | (s1, none, ackElicited) =>
    if ackElicited then
      (s1.updateSpace space (fun sp => { sp with ackElicited := true }), none)
    else (s1, none)

/-- The per-frame reinjection of `Conn.processLostPackets` (the `switch`
inside the `drainLost` callback). -/
def Conn.onLostFrame (s : Conn) (space : PacketSpace) (f : Frame) : Conn :=
  match f with
  | .ack _ _ _ => s.updateSpace space (fun sp => { sp with ackElicited := true })
  | .crypto off data =>
    s.updateSpace space (fun sp =>
      { sp with cryptoStream := { sp.cryptoStream with send := sp.cryptoStream.send.push data off false } })
  | .stream id off fin data =>
    match s.streams.get id with
    | some st => { s with streams := s.streams.set id { st with send := st.send.push data off fin } }
    | none => s
  | .handshakeDone => { s with handshakeConfirmed := false }
  | _ => s

/-- Mirrors `Conn.processLostPackets(space)`: drain the recovery module's
lost-frame list for the space and reinject each frame by kind. -/
def Conn.processLostPackets (s : Conn) (space : PacketSpace) : Conn :=
  let fs := s.recovery.lost.get space
  let s := { s with recovery := { s.recovery with lost := s.recovery.lost.set space [] } }
  fs.foldl (fun acc f => Conn.onLostFrame acc space f) s

/-- The per-frame handling of `Conn.processAckedPackets` (the `switch`
inside the `drainAcked` callback). -/
def Conn.processAckedFrame (s : Conn) (space : PacketSpace) (f : Frame) : Conn :=
  match f with
  | .ack largestAck _ _ =>
    s.updateSpace space (fun sp =>
      { sp with recvPacketNeedAck := sp.recvPacketNeedAck.filter (fun pn => largestAck < pn) })
  | .crypto off data =>
    s.updateSpace space (fun sp =>
      { sp with cryptoStream := { sp.cryptoStream with send := sp.cryptoStream.send.ack off data.length } })
  | .stream id off _ data =>
    match s.streams.get id with
    | some st =>
      let st := { st with send := st.send.ack off data.length }
      let s := { s with streams := s.streams.set id st }
      if st.send.complete then s.addEvent (.streamComplete id) else s
    | none => s
  | .maxData _ => { s with updateMaxData := false }
  | .maxStreamData id _ =>
    match s.streams.get id with
    | some st => { s with streams := s.streams.set id st.ackMaxData }
    | none => s
  | _ => s

/-- Mirrors `Conn.processAckedPackets(space)`: drain the recovery module's
acked-frame list for the space and update per-kind state. -/
def Conn.processAckedPackets (s : Conn) (space : PacketSpace) : Conn :=
  let fs := s.recovery.acked.get space
  let s := { s with recovery := { s.recovery with acked := s.recovery.acked.set space [] } }
  fs.foldl (fun acc f => Conn.processAckedFrame acc space f) s

/-- Mirrors `Conn.recvPacketRetry` at the decoded level: `integrityOK`
stands for the external `verifyRetryIntegrity(b, s.dcid)` check computed
over the pseudo-packet with the previous DCID. -/
def Conn.recvPacketRetry (s : Conn) (p : RetryPacket) (integrityOK : Bool) : RecvPacketResult :=
  if s.isClient = false ∨ s.didRetry = true ∨ s.state ≠ .stateAttempted ∨
     p.dcid ≠ s.scid ∨ p.scid = s.dcid then
    .dropped s
  else if p.token = [] ∨ integrityOK = false then
    .failed s errInvalidToken
  else
    let s := { s with didRetry := true }
    let s := { s with token := p.token }
    let s := { s with odcid := s.dcid }
    let s := { s with dcid := p.scid }
    let s := { s with rscid := s.dcid }
    let s := s.deriveInitialKeyMaterial s.dcid
    let s := { s with gotPeerCID := false }
    let s := { s with recovery := s.recovery.dropUnackedData .packetSpaceInitial }
    let s := s.updateSpace .packetSpaceInitial PacketNumberSpace.reset
    let s := { s with handshake := s.handshake.reset }
    let s := { s with handshake := s.handshake.setTransportParams s.localParams }
    .processed s

/-- Mirrors `Conn.recvPacket` at the decoded level: `decryptOK` stands for
the external AEAD open; the packet arrives with its decrypted frames. -/
def Conn.recvPacket (s : Conn) (p : IncomingPacket) (decryptOK : Bool)
    (space : PacketSpace) (now : Int) : RecvPacketResult :=
  let pnSpace := s.packetNumberSpaces.get space
  if pnSpace.canDecrypt = false then .dropped s
  else if decryptOK = false then .failed s (newError .internalError "packet decryption failed")
  else if pnSpace.isPacketReceived p.packetNumber then .dropped s
  else
    match s.recvFrames p.frames space now with
    | (s1, some e) => .failed s1 e
    | (s1, none) =>
      let s2 := s1.processAckedPackets space
      let s3 := s2.updateSpace space (fun sp => sp.onPacketReceived p.packetNumber now)
      let s4 := if 0 < s3.localParams.MaxIdleTimeout then
                  { s3 with idleTimer := now + s3.localParams.MaxIdleTimeout }
                else s3
      let s5 := if s4.isClient = false ∧ space = .packetSpaceHandshake ∧ s4.state = .stateAttempted then
                  Conn.dropPacketSpace { s4 with state := .stateHandshake } .packetSpaceInitial
                else s4
      .processed { s5 with ackElicitingSent := false }

/-- Mirrors `Conn.recvPacketHandshake`: drop unless the header CIDs match
the connection's SCID/DCID pair, then ingest in the Handshake space. -/
def Conn.recvPacketHandshake (s : Conn) (p : IncomingPacket) (decryptOK : Bool) (now : Int) : RecvPacketResult :=
  if p.dcid ≠ s.scid ∨ p.scid ≠ s.dcid then .dropped s
  else s.recvPacket p decryptOK .packetSpaceHandshake now

/-- Mirrors `Conn.onPacketSent(op, space)`: register with recovery, advance
the next packet number, and re-arm the idle timer when this is the first
ack-eliciting packet since last receiving one. -/
def Conn.onPacketSent (s : Conn) (op : OutgoingPacket) (space : PacketSpace) : Conn :=
  let s := { s with recovery := s.recovery.recordPacketSent
                      { packetNumber := op.packetNumber, timeSent := op.timeSent,
                        size := op.size, ackEliciting := op.ackEliciting,
                        frames := op.frames } space }
  let s := s.updateSpace space (fun sp => { sp with nextPacketNumber := sp.nextPacketNumber + 1 })
  if op.ackEliciting then
    let s := if s.ackElicitingSent = false ∧ 0 < s.localParams.MaxIdleTimeout then
               { s with idleTimer := op.timeSent + s.localParams.MaxIdleTimeout }
             else s
    { s with ackElicitingSent := true }
  else s

/-- Mirrors `Conn.sendFrameAck`: an ACK frame over the pending received
packet numbers when the space is ack-elicited, else nothing. -/
def Conn.sendFrameAck (s : Conn) (pnSpace : PacketNumberSpace) (now : Int) : Option Frame :=
  if pnSpace.ackElicited then
    let ackDelay := ((now - pnSpace.largestRecvPacketTime).toNat / 1000) / (1 <<< s.peerParams.AckDelayExponent)
    some (.ack (pnSpace.recvPacketNeedAck.foldr max 0) ackDelay
               (pnSpace.recvPacketNeedAck.map (fun pn => (pn, pn))))
  else none

/-- Modelled from the spec: `maxCryptoFrameOverhead`, the worst-case CRYPTO
frame header size (type byte plus two 8-byte varints). -/
def maxCryptoFrameOverhead : Nat := 17

/-- Modelled from the spec: `maxStreamFrameOverhead`, the worst-case STREAM
frame header size (type byte plus three 8-byte varints). -/
def maxStreamFrameOverhead : Nat := 25

/-- Mirrors `Conn.sendFrameCrypto`: pop pending CRYPTO bytes that fit and
build a frame; returns the space as the pop left it. -/
def Conn.sendFrameCrypto (_s : Conn) (pnSpace : PacketNumberSpace) (left : Nat) :
    Option Frame × PacketNumberSpace :=
  if maxCryptoFrameOverhead < left then
    let r := pnSpace.cryptoStream.send.popSend (left - maxCryptoFrameOverhead)
    if 0 < r.1.1.length then
      (some (.crypto r.1.2.1 r.1.1),
       { pnSpace with cryptoStream := { pnSpace.cryptoStream with send := r.2 } })
    else (none, pnSpace)
  else (none, pnSpace)

/-- Mirrors `Conn.sendFrameStream`: pop stream bytes within the frame
budget and the connection send credit. -/
def Conn.sendFrameStream (s : Conn) (id : Nat) (st : Quic.Stream) (left : Nat) : Option Frame × Quic.Stream :=
  let allowed := s.flow.canSend
  let budget := min (left - maxStreamFrameOverhead) allowed
  if 0 < budget then
    let r := st.popSend budget
    if 0 < r.1.1.length then
      (some (.stream id r.1.2.1 r.1.2.2 r.1.1), r.2)
    else (none, r.2)
  else (none, st)

/-- Mirrors `Conn.sendFrameMaxData`. -/
def Conn.sendFrameMaxData (s : Conn) : Option Frame :=
  if s.updateMaxData || s.flow.shouldUpdateMaxRecv then
    some (.maxData s.flow.maxRecvNext)
  else none

/-- Mirrors `Conn.sendFrameMaxStreamData`. -/
def Conn.sendFrameMaxStreamData (_s : Conn) (id : Nat) (st : Quic.Stream) : Option Frame :=
  if st.updateMaxData then some (.maxStreamData id st.flow.maxRecvNext) else none

/-- Mirrors `Conn.sendFrameHandshakeDone`: servers only, once Active, until
confirmed. -/
def Conn.sendFrameHandshakeDone (s : Conn) : Option Frame :=
  if s.isClient = true ∨ s.state ≠ .stateActive ∨ s.handshakeConfirmed = true then none
  else some .handshakeDone

/-- The MAX_STREAM_DATA loop of `Conn.sendFrames` over the stream map. -/
def Conn.sendFramesMaxStreamData (s : Conn) (ids : List Nat) (frames : List Frame)
    (payloadLen left : Nat) : Conn × List Frame × Nat × Nat :=
  match ids with
  | [] => (s, frames, payloadLen, left)
  | id :: rest =>
    match s.streams.get id with
    | none => Conn.sendFramesMaxStreamData s rest frames payloadLen left
    | some st =>
      match s.sendFrameMaxStreamData id st with
      | none => Conn.sendFramesMaxStreamData s rest frames payloadLen left
      | some f =>
        let n := f.encodedLen
        if n ≤ left then
          let s := { s with streams := s.streams.set id { st with flow := st.flow.commitMaxRecv } }
          Conn.sendFramesMaxStreamData s rest (frames ++ [f]) (payloadLen + n) (left - n)
        else Conn.sendFramesMaxStreamData s rest frames payloadLen left

/-- The STREAM loop of `Conn.sendFrames` over the stream map. -/
def Conn.sendFramesStream (s : Conn) (ids : List Nat) (frames : List Frame)
    (payloadLen left : Nat) : Conn × List Frame × Nat × Nat :=
  match ids with
  | [] => (s, frames, payloadLen, left)
  | id :: rest =>
    match s.streams.get id with
    | none => Conn.sendFramesStream s rest frames payloadLen left
    | some st =>
      match s.sendFrameStream id st left with
      | (none, st2) =>
        let s := { s with streams := s.streams.set id st2 }
        Conn.sendFramesStream s rest frames payloadLen left
      | (some f, st2) =>
        let n := f.encodedLen
        let dataLen := match f with
          | .stream _ _ _ data => data.length
          | _ => 0
        let s := { s with streams := s.streams.set id st2, flow := s.flow.addSend dataLen }
        Conn.sendFramesStream s rest (frames ++ [f]) (payloadLen + n) (left - n)

/-- Mirrors `Conn.sendFrames(op, space, left, now)`: stage the
CONNECTION_CLOSE if one is pending (entering draining), and below Draining
add ACK, CRYPTO, and in the Application space HANDSHAKE_DONE, MAX_DATA,
MAX_STREAM_DATA, STREAM frames, and a PING when a probe is owed.  Returns
the connection, the frame list of the packet, and the payload length. -/
def Conn.sendFrames (s : Conn) (space : PacketSpace) (left : Nat) (now : Int) :
    Conn × List Frame × Nat :=
  let start : Conn × List Frame × Nat × Nat :=
    match s.closeFrame with
    | some cf =>
      let n := cf.encodedLen
      if n ≤ left then (s.setDraining now, [cf.toFrame], n, left - n)
      else (s, [], 0, left)
    | none => (s, [], 0, left)
  match start with
  | (s, frames, payloadLen, left) =>
    if s.state.idx < ConnectionState.idx .stateDraining then
      -- ACK
      let step : Conn × List Frame × Nat × Nat :=
        match s.sendFrameAck (s.packetNumberSpaces.get space) now with
        | some f =>
          let n := f.encodedLen
          if n ≤ left then
            (s.updateSpace space (fun sp => { sp with ackElicited := false }),
             frames ++ [f], payloadLen + n, left - n)
          else (s, frames, payloadLen, left)
        | none => (s, frames, payloadLen, left)
      match step with
      | (s, frames, payloadLen, left) =>
        -- CRYPTO
        let step : Conn × List Frame × Nat × Nat :=
          match s.sendFrameCrypto (s.packetNumberSpaces.get space) left with
          | (some f, sp2) =>
            let n := f.encodedLen
            ({ s with packetNumberSpaces := s.packetNumberSpaces.set space sp2 },
             frames ++ [f], payloadLen + n, left - n)
          | (none, _) => (s, frames, payloadLen, left)
        match step with
        | (s, frames, payloadLen, left) =>
          let step : Conn × List Frame × Nat × Nat :=
            if space = .packetSpaceApplication then
              -- HANDSHAKE_DONE
              let step : Conn × List Frame × Nat × Nat :=
                match s.sendFrameHandshakeDone with
                | some f =>
                  let n := f.encodedLen
                  if n ≤ left then
                    ({ s with handshakeConfirmed := true }, frames ++ [f], payloadLen + n, left - n)
                  else (s, frames, payloadLen, left)
                | none => (s, frames, payloadLen, left)
              match step with
              | (s, frames, payloadLen, left) =>
                -- MAX_DATA
                let step : Conn × List Frame × Nat × Nat :=
                  match s.sendFrameMaxData with
                  | some f =>
                    let n := f.encodedLen
                    if n ≤ left then
                      ({ s with updateMaxData := true, flow := s.flow.commitMaxRecv },
                       frames ++ [f], payloadLen + n, left - n)
                    else (s, frames, payloadLen, left)
                  | none => (s, frames, payloadLen, left)
                match step with
                | (s, frames, payloadLen, left) =>
                  let step := Conn.sendFramesMaxStreamData s (s.streams.streams.map Prod.fst)
                                frames payloadLen left
                  match step with
                  | (s, frames, payloadLen, left) =>
                    Conn.sendFramesStream s (s.streams.streams.map Prod.fst) frames payloadLen left
            else (s, frames, payloadLen, left)
          match step with
          | (s, frames, payloadLen, left) =>
            -- PING
            if 0 < s.recovery.probes ∧ 1 ≤ left then
              ({ s with recovery := { s.recovery with probes := s.recovery.probes - 1 } },
               frames ++ [Frame.ping], payloadLen + 1)
            else (s, frames, payloadLen)
    else (s, frames, payloadLen)

/-! ## Concrete instances used by witnesses and counterexamples -/

/-- All-zero transport parameters (the Go zero value; `AckDelayExponent`
defaults to 3 per spec section 6). -/
def zeroParams : Parameters :=
  { InitialMaxData := 0, InitialMaxStreamDataBidiLocal := 0,
    InitialMaxStreamDataBidiRemote := 0, InitialMaxStreamDataUni := 0,
    InitialMaxStreamsBidi := 0, InitialMaxStreamsUni := 0,
    MaxIdleTimeout := 0, MaxUDPPayloadSize := 0, AckDelayExponent := 3,
    MaxAckDelay := 0, StatelessResetToken := [],
    OriginalDestinationCID := [], RetrySourceCID := [], InitialSourceCID := [] }

/-- A minimal concrete connection used to build witnesses and
counterexamples. -/
def baseConn : Conn :=
  { isClient := false, version := 1,
    scid := [], dcid := [], odcid := [], rscid := [], token := [],
    packetNumberSpaces :=
      ⟨PacketNumberSpace.initSpace, PacketNumberSpace.initSpace, PacketNumberSpace.initSpace⟩,
    streams := StreamMap.initMap 0 0,
    localParams := zeroParams, peerParams := zeroParams,
    handshake := TLSHandshake.freshHandshake,
    recovery := LossRecovery.initRecovery,
    flow := FlowControl.initFlow 0 0,
    state := .stateAttempted,
    gotPeerCID := false, didRetry := false, didVersionNegotiation := false,
    ackElicitingSent := false, handshakeConfirmed := false,
    derivedInitialSecrets := false, updateMaxData := false,
    closeFrame := none, idleTimer := 0, drainingTimer := 0, events := [] }

/-- Witness for C1: a draining connection with deadline 100 at time 5. -/
def c1W : Conn := { baseConn with state := .stateActive, drainingTimer := 100 }

/-- Counterexample connection for C1: all three deadlines set, the idle one
earliest. -/
def c1cex : Conn :=
  { baseConn with state := .stateActive, drainingTimer := 100,
                  recovery := { LossRecovery.initRecovery with lossDetectionTimer := 50 },
                  idleTimer := 7 }

/-- Frame predicate for claim C4: the packet carries only PADDING and ACK
frames. -/
def isPaddingOrAck : Frame → Bool
  | .padding _ => true
  | .ack _ _ _ => true
  | _ => false

/-- Server connection with a 10-byte connection-level receive window and a
large per-stream window, for claim C2. -/
def c2base : Conn :=
  { baseConn with flow := FlowControl.initFlow 10 0,
                  localParams := { zeroParams with InitialMaxStreamDataBidiRemote := 1000 },
                  streams := StreamMap.initMap 10 10 }

/-- Staged close frame used by the C3 witness. -/
def cfW : ConnectionCloseFrame :=
  { application := false, errorCode := 0xA, frameType := 0, reasonPhrase := "x" }

/-- Draining connection with a staged close frame, for the C3 witness. -/
def sW : Conn := { baseConn with state := .stateDraining, closeFrame := some cfW }

/-- Error used by the C3 witness. -/
def eW : QError := newError .protocolViolation "unexpected handshake done frame"

/-- Client connection in Attempted state for claim C5. -/
def c5W : Conn :=
  { baseConn with isClient := true, scid := [1], dcid := [2] }

/-- Retry packet matching `c5W` (DCID = client SCID, fresh SCID, a token). -/
def p5W : RetryPacket := { dcid := [1], scid := [3], token := [7] }

/-- Server connection in Attempted state with keyed Initial and Handshake
spaces, for claim C6. -/
def c6conn : Conn :=
  { baseConn with scid := [1], dcid := [2],
                  packetNumberSpaces :=
                    ⟨{ PacketNumberSpace.initSpace with opener := some [9], sealer := some [9] },
                     { PacketNumberSpace.initSpace with opener := some [8], sealer := some [8] },
                     PacketNumberSpace.initSpace⟩ }

/-- Handshake packet carrying only a CONNECTION_CLOSE frame, for the C6
counterexample. -/
def c6pkt : IncomingPacket :=
  { dcid := [1], scid := [2], packetNumber := 0, frames := [.connectionClose false 0 0 ""] }

/-- Handshake packet carrying a PING frame, for the C6 witness. -/
def c6pktW : IncomingPacket :=
  { dcid := [1], scid := [2], packetNumber := 0, frames := [.ping] }

/-- Connections with a singleton lost-frame list of each kind, for the C7
witness. -/
def c7crypto : Conn :=
  { baseConn with recovery := { LossRecovery.initRecovery with lost := ⟨[.crypto 3 [9, 9]], [], []⟩ } }

def c7stream : Conn :=
  { baseConn with recovery := { LossRecovery.initRecovery with lost := ⟨[.stream 0 3 true [9]], [], []⟩ },
                  streams := { StreamMap.initMap 0 0 with streams := [(0, defaultStream)] } }

def c7ack : Conn :=
  { baseConn with recovery := { LossRecovery.initRecovery with lost := ⟨[.ack 4 0 [(0, 4)]], [], []⟩ } }

def c7done : Conn :=
  { baseConn with handshakeConfirmed := true,
                  recovery := { LossRecovery.initRecovery with lost := ⟨[.handshakeDone], [], []⟩ } }

/-- Connection about to send its first ack-eliciting packet with a zero max
idle timeout, for the C8 counterexample. -/
def c8zero : Conn := baseConn

/-- Ack-eliciting outgoing packet sent at time 5, for claim C8. -/
def c8op : OutgoingPacket :=
  { packetNumber := 0, timeSent := 5, frames := [.ping], ackEliciting := true, size := 10 }

/-- Connection with an ack-eliciting packet outstanding and no Application
keys, for the C8 counterexample (an undecryptable packet is dropped). -/
def c8flag : Conn := { baseConn with ackElicitingSent := true }

/-- Packet fed to `c8flag` in the C8 counterexample. -/
def c8pkt : IncomingPacket := { dcid := [], scid := [], packetNumber := 0, frames := [] }

/-- Connection with idle timeout armed allowed, for the C8 witness. -/
def c8arm : Conn :=
  { baseConn with localParams := { zeroParams with MaxIdleTimeout := 1000 } }

/-- Keyed connection processing an empty packet, for the C8 witness. -/
def c8keyed : Conn :=
  { baseConn with ackElicitingSent := true,
                  packetNumberSpaces :=
                    ⟨{ PacketNumberSpace.initSpace with opener := some [9] },
                     PacketNumberSpace.initSpace, PacketNumberSpace.initSpace⟩ }

/-- Configuration used by the C9 witness. -/
def c9cfg : Config := { Version := 1, Params := zeroParams }

/-- A 21-byte connection ID, one byte over the limit, for the C9 witness. -/
def cid21 : List Nat := List.replicate 21 0

/-! ## Helper lemmas and claim theorems -/

theorem SpaceArray.get_set_same {α : Type} (a : SpaceArray α) (sp : PacketSpace) (x : α) :
    (a.set sp x).get sp = x := by
  cases sp <;> rfl

theorem SpaceArray.get_set_other {α : Type} (a : SpaceArray α) (sp sp' : PacketSpace) (x : α)
    (h : sp' ≠ sp) : (a.set sp x).get sp' = a.get sp' := by
  cases sp <;> cases sp' <;> first | rfl | exact absurd rfl h

/-! ## Claim C1 -/

/-- C1 (amended): for a connection not Closed, `Timeout()` returns the
clamped duration to the first set deadline in the fixed priority order
draining, loss-detection, idle (not to the earliest of the set deadlines),
and the disarmed value `-1` when the connection is Closed or none of the
three deadlines is set. -/
theorem claim1_timeout_priority (c : Conn) (now : Int) :
    (c.state = .stateClosed → c.Timeout now = -1) ∧
    (c.state ≠ .stateClosed → c.drainingTimer ≠ 0 →
       c.Timeout now = max 0 (c.drainingTimer - now)) ∧
    (c.state ≠ .stateClosed → c.drainingTimer = 0 → c.recovery.lossDetectionTimer ≠ 0 →
       c.Timeout now = max 0 (c.recovery.lossDetectionTimer - now)) ∧
    (c.state ≠ .stateClosed → c.drainingTimer = 0 → c.recovery.lossDetectionTimer = 0 →
       c.idleTimer ≠ 0 → c.Timeout now = max 0 (c.idleTimer - now)) ∧
    (c.state ≠ .stateClosed → c.drainingTimer = 0 → c.recovery.lossDetectionTimer = 0 →
       c.idleTimer = 0 → c.Timeout now = -1) := by
  refine ⟨?_, ?_, ?_, ?_, ?_⟩
  · intro h; simp [Conn.Timeout, h]
  · intro h1 h2
    simp only [Conn.Timeout, if_neg h1, if_pos h2]
    split <;> omega
  · intro h1 h2 h3
    simp only [Conn.Timeout, if_neg h1, h2]
    norm_num
    rw [if_neg h3]
    split <;> omega
  · intro h1 h2 h3 h4
    simp only [Conn.Timeout, if_neg h1, h2, h3]
    norm_num
    rw [if_neg h4]
    split <;> omega
  · intro h1 h2 h3 h4; simp [Conn.Timeout, h1, h2, h3, h4]

/-- C1 witness: the amended theorem applied at `c1W`, now = 5. -/
theorem claim1_timeout_priority_witness :
    c1W.state ≠ .stateClosed ∧ c1W.drainingTimer ≠ 0 ∧
    c1W.Timeout 5 = max 0 ((100 : Int) - 5) :=
  ⟨by decide, by decide, (claim1_timeout_priority c1W 5).2.1 (by decide) (by decide)⟩

/-- C1 counterexample: at time 0 the earliest set deadline is the idle one
at 7, but `Timeout()` returns 100 (the draining deadline), so it is not
the duration to the earliest set deadline. -/
theorem claim1_timeout_priority_cex :
    c1cex.state ≠ .stateClosed ∧
    c1cex.drainingTimer = 100 ∧ c1cex.recovery.lossDetectionTimer = 50 ∧ c1cex.idleTimer = 7 ∧
    min (min c1cex.drainingTimer c1cex.recovery.lossDetectionTimer) c1cex.idleTimer = 7 ∧
    c1cex.Timeout 0 = 100 ∧ (100 : Int) ≠ max 0 (7 - 0) := by
  decide

theorem StreamMap.findList_setList (l : List (Nat × Quic.Stream)) (id : Nat) (st : Quic.Stream) :
    (StreamMap.setList l id st).find? (fun p => p.1 == id) = some (id, st) := by
  induction l with
  | nil => simp [StreamMap.setList]
  | cons hd tl ih =>
    obtain ⟨k, v⟩ := hd
    by_cases h : k = id
    · subst h; simp [StreamMap.setList]
    · simp [StreamMap.setList, h, ih]

theorem StreamMap.get_set_self (m : StreamMap) (id : Nat) (st : Quic.Stream) :
    (m.set id st).get id = some st := by
  simp [StreamMap.get, StreamMap.set, StreamMap.findList_setList]

/-! ## Claim C10 -/

/-- C10: calling `Stream(id)` for an ID that is not in the stream map and
whose initiator bit does not match the local role fails with a
STREAM_STATE_ERROR and leaves the connection, in particular its stream
map, unchanged. -/
theorem claim10_stream_wrong_initiator (s : Conn) (id : Nat) :
    s.streams.get id = none → isStreamLocal id s.isClient = false →
    s.Stream id = (s, .error (newError .streamStateError "invalid type of stream")) ∧
    (s.Stream id).1.streams = s.streams := by
  intro h1 h2
  have hmain : s.Stream id = (s, .error (newError .streamStateError "invalid type of stream")) := by
    unfold Conn.Stream Conn.getOrCreateStream
    rw [h1, h2]
    simp
  exact ⟨hmain, by rw [hmain]⟩

/-- C10 witness: on the base (server) connection, stream 0 is
client-initiated, absent, and rejected. -/
theorem claim10_stream_wrong_initiator_witness :
    baseConn.streams.get 0 = none ∧ isStreamLocal 0 baseConn.isClient = false ∧
    baseConn.Stream 0 = (baseConn, .error (newError .streamStateError "invalid type of stream")) :=
  ⟨by decide, by decide, (claim10_stream_wrong_initiator baseConn 0 (by decide) (by decide)).1⟩

/-! ## Claim C9 -/

/-- C9: `Connect` and `Accept` fail with an InternalError when the config
is missing, fail with a ProtocolViolation when a supplied CID exceeds 20
bytes, and otherwise return a connection in the Attempted state. -/
theorem claim9_constructors (scid odcid : List Nat) (cfg : Config) (rnd : List Nat) :
    (Connect scid none rnd = .error (newError .internalError "config required")) ∧
    (Accept scid odcid none = .error (newError .internalError "config required")) ∧
    (MaxCIDLength < scid.length →
       Connect scid (some cfg) rnd = .error (newError .protocolViolation "cid too long")) ∧
    (MaxCIDLength < scid.length ∨ MaxCIDLength < odcid.length →
       Accept scid odcid (some cfg) = .error (newError .protocolViolation "cid too long")) ∧
    (scid.length ≤ MaxCIDLength →
       ∃ c, Connect scid (some cfg) rnd = .ok c ∧ c.state = .stateAttempted) ∧
    (scid.length ≤ MaxCIDLength → odcid.length ≤ MaxCIDLength →
       ∃ c, Accept scid odcid (some cfg) = .ok c ∧ c.state = .stateAttempted) := by
  refine ⟨rfl, rfl, ?_, ?_, ?_, ?_⟩
  · intro h
    have hc : MaxCIDLength < scid.length ∨ MaxCIDLength < ([] : List Nat).length := Or.inl h
    simp only [Connect, newConn, hc, if_true]
  · intro h
    simp only [Accept, newConn, h, if_true]
  · intro h
    have hc : ¬(MaxCIDLength < scid.length ∨ MaxCIDLength < ([] : List Nat).length) := by
      simp only [List.length_nil, not_or, not_lt]
      exact ⟨h, Nat.zero_le _⟩
    simp only [Connect, newConn, hc, if_false]
    exact ⟨_, rfl, rfl⟩
  · intro h1 h2
    have hc : ¬(MaxCIDLength < scid.length ∨ MaxCIDLength < odcid.length) := by
      simp only [not_or, not_lt]
      exact ⟨h1, h2⟩
    by_cases ho : odcid = []
    · subst ho
      simp only [Accept, newConn, hc, if_false]
      exact ⟨_, rfl, rfl⟩
    · simp only [Accept, newConn, hc, if_false, ho, ne_eq, not_false_eq_true, if_true]
      exact ⟨_, rfl, rfl⟩

/-- C9 witness: missing config, an over-long CID, and successful
construction on both roles. -/
theorem claim9_constructors_witness :
    Connect [1] none [] = .error (newError .internalError "config required") ∧
    MaxCIDLength < cid21.length ∧
    Connect cid21 (some c9cfg) [] = .error (newError .protocolViolation "cid too long") ∧
    Accept [1] cid21 (some c9cfg) = .error (newError .protocolViolation "cid too long") ∧
    (∃ c, Connect [1] (some c9cfg) [2] = .ok c ∧ c.state = .stateAttempted) ∧
    (∃ c, Accept [1] [2] (some c9cfg) = .ok c ∧ c.state = .stateAttempted) :=
  ⟨(claim9_constructors [1] [] c9cfg []).1,
   by decide,
   (claim9_constructors cid21 [] c9cfg []).2.2.1 (by decide),
   (claim9_constructors [1] cid21 c9cfg []).2.2.2.1 (Or.inr (by decide)),
   (claim9_constructors [1] [] c9cfg [2]).2.2.2.2.1 (by decide),
   (claim9_constructors [1] [2] c9cfg []).2.2.2.2.2 (by decide) (by decide)⟩

/-! ## Claim C3 -/

set_option maxHeartbeats 1000000 in
/-- Helper: with a staged close frame that fits and the connection already
Draining, `sendFrames` emits exactly the close frame and arms the draining
timer. -/
theorem sendFrames_draining (s : Conn) (space : PacketSpace) (left : Nat) (now : Int)
    (cf : ConnectionCloseFrame) (h1 : s.closeFrame = some cf) (h2 : s.state = .stateDraining)
    (h3 : cf.encodedLen ≤ left) :
    s.sendFrames space left now = (s.setDraining now, [cf.toFrame], cf.encodedLen) := by
  have hstate : (s.setDraining now).state = s.state := by
    unfold Conn.setDraining; split <;> rfl
  unfold Conn.sendFrames
  rw [h1]
  simp only [if_pos h3, hstate, h2, ConnectionState.idx, Nat.lt_irrefl, if_false]

/-- C3: a connection-fatal protocol failure detected while ingesting a
packet — here the unexpected HANDSHAKE_DONE frame at a server — surfaces as
a PROTOCOL_VIOLATION error; staging it puts a CONNECTION_CLOSE with that
error's code into `closeFrame` and moves the connection to Draining, and a
subsequent send pass (`sendFrames`, the frame-filling step of `Read`)
flushes exactly the close frame and arms the draining timer. -/
theorem claim3_fatal_close (s : Conn) (e : QError) (space : PacketSpace) (left : Nat) (now : Int) :
    (s.isClient = false →
       (s.recvFrameHandshakeDone).2 =
         some (newError .protocolViolation "unexpected handshake done frame")) ∧
    (s.drainingTimer = 0 → s.closeFrame = none →
       (s.stageFatalError e).closeFrame =
         some { application := false, errorCode := e.code.wire, frameType := 0,
                reasonPhrase := e.reason } ∧
       (s.stageFatalError e).state = .stateDraining) ∧
    (∀ cf, s.closeFrame = some cf → s.state = .stateDraining → cf.encodedLen ≤ left →
       (s.sendFrames space left now).2.1 = [cf.toFrame] ∧
       (s.drainingTimer = 0 →
          (s.sendFrames space left now).1.drainingTimer = now + s.recovery.probeTimeout * 3)) := by
  refine ⟨?_, ?_, ?_⟩
  · intro h
    simp [Conn.recvFrameHandshakeDone, h]
  · intro h1 h2
    simp [Conn.stageFatalError, Conn.Close, h1, h2]
  · intro cf h1 h2 h3
    have hframes := sendFrames_draining s space left now cf h1 h2 h3
    refine ⟨by rw [hframes], ?_⟩
    intro h4
    rw [hframes]
    simp [Conn.setDraining, h4]

/-- C3 witness: the theorem applied to the base server connection (for the
HANDSHAKE_DONE error and the staging step) and to `sW`, a draining
connection with the staged close frame `cfW`, for the flush step. -/
theorem claim3_fatal_close_witness :
    ((baseConn.recvFrameHandshakeDone).2 =
       some (newError .protocolViolation "unexpected handshake done frame")) ∧
    ((baseConn.stageFatalError eW).closeFrame =
       some { application := false, errorCode := eW.code.wire, frameType := 0,
              reasonPhrase := eW.reason } ∧
     (baseConn.stageFatalError eW).state = .stateDraining) ∧
    ((sW.sendFrames .packetSpaceInitial 100 0).2.1 = [cfW.toFrame] ∧
     (sW.sendFrames .packetSpaceInitial 100 0).1.drainingTimer =
       0 + sW.recovery.probeTimeout * 3) :=
  ⟨(claim3_fatal_close baseConn eW .packetSpaceInitial 100 0).1 (by decide),
   (claim3_fatal_close baseConn eW .packetSpaceInitial 100 0).2.1 (by decide) (by decide),
   ⟨((claim3_fatal_close sW eW .packetSpaceInitial 100 0).2.2 cfW (by decide) (by decide)
       (by decide)).1,
    ((claim3_fatal_close sW eW .packetSpaceInitial 100 0).2.2 cfW (by decide) (by decide)
       (by decide)).2 (by decide)⟩⟩

/-! ## Claim C7 -/

/-- C7: draining the lost-frame list reinjects each frame by kind: a lost
CRYPTO frame is pushed back onto the space's crypto send buffer at its
original offset, a lost STREAM frame is pushed back onto that stream's
send buffer at its original offset and fin flag, a lost ACK frame re-sets
the space's ack-elicited flag, and a lost HANDSHAKE_DONE frame clears the
handshake-confirmed flag. -/
theorem claim7_lost_reinjection (s : Conn) (space : PacketSpace) (data : List Nat)
    (off : Nat) (fin : Bool) (id largestAck delay : Nat) (ranges : List (Nat × Nat))
    (st : Quic.Stream) :
    (s.recovery.lost.get space = [.crypto off data] →
       ((s.processLostPackets space).packetNumberSpaces.get space).cryptoStream.send =
         (s.packetNumberSpaces.get space).cryptoStream.send.push data off false ∧
       (s.processLostPackets space).recovery.lost.get space = []) ∧
    (s.recovery.lost.get space = [.stream id off fin data] → s.streams.get id = some st →
       (s.processLostPackets space).streams.get id =
         some { st with send := st.send.push data off fin }) ∧
    (s.recovery.lost.get space = [.ack largestAck delay ranges] →
       ((s.processLostPackets space).packetNumberSpaces.get space).ackElicited = true) ∧
    (s.recovery.lost.get space = [.handshakeDone] →
       (s.processLostPackets space).handshakeConfirmed = false) := by
  refine ⟨?_, ?_, ?_, ?_⟩
  · intro h
    simp [Conn.processLostPackets, h, Conn.onLostFrame, Conn.updateSpace,
          SpaceArray.get_set_same]
  · intro h1 h2
    simp [Conn.processLostPackets, h1, Conn.onLostFrame, h2, StreamMap.get_set_self]
  · intro h
    simp [Conn.processLostPackets, h, Conn.onLostFrame, Conn.updateSpace,
          SpaceArray.get_set_same]
  · intro h
    simp [Conn.processLostPackets, h, Conn.onLostFrame]

/-- C7 witness: the theorem applied to four concrete connections, each with
a singleton lost-frame list of one kind. -/
theorem claim7_lost_reinjection_witness :
    (((c7crypto.processLostPackets .packetSpaceInitial).packetNumberSpaces.get
        .packetSpaceInitial).cryptoStream.send =
      (c7crypto.packetNumberSpaces.get .packetSpaceInitial).cryptoStream.send.push [9, 9] 3 false) ∧
    ((c7stream.processLostPackets .packetSpaceInitial).streams.get 0 =
      some { defaultStream with send := defaultStream.send.push [9] 3 true }) ∧
    (((c7ack.processLostPackets .packetSpaceInitial).packetNumberSpaces.get
        .packetSpaceInitial).ackElicited = true) ∧
    ((c7done.processLostPackets .packetSpaceInitial).handshakeConfirmed = false) :=
  ⟨((claim7_lost_reinjection c7crypto .packetSpaceInitial [9, 9] 3 false 0 0 0 []
       defaultStream).1 (by decide)).1,
   ((claim7_lost_reinjection c7stream .packetSpaceInitial [9] 3 true 0 0 0 []
       defaultStream).2.1 (by decide) (by decide)),
   ((claim7_lost_reinjection c7ack .packetSpaceInitial [] 0 false 0 4 0 [(0, 4)]
       defaultStream).2.2.1 (by decide)),
   ((claim7_lost_reinjection c7done .packetSpaceInitial [] 0 false 0 0 0 []
       defaultStream).2.2.2 (by decide))⟩

/-! ## Claim C8 -/

/-- C8 (amended): on packet sent, the idle timer is re-armed to the send
time plus the local max idle timeout iff the packet is ack-eliciting, no
ack-eliciting packet was sent since the last receive, and the local max
idle timeout is positive; sending an ack-eliciting packet sets the flag;
successfully processing a received packet clears it (a dropped packet does
not). -/
theorem claim8_idle_rearm (s : Conn) (op : OutgoingPacket) (space : PacketSpace)
    (p : IncomingPacket) (dok : Bool) (now : Int) :
    (op.ackEliciting = true → s.ackElicitingSent = false → 0 < s.localParams.MaxIdleTimeout →
       (s.onPacketSent op space).idleTimer = op.timeSent + s.localParams.MaxIdleTimeout) ∧
    (op.ackEliciting = true → (s.onPacketSent op space).ackElicitingSent = true) ∧
    (op.ackEliciting = false ∨ s.ackElicitingSent = true →
       (s.onPacketSent op space).idleTimer = s.idleTimer) ∧
    (∀ c1, s.recvPacket p dok space now = .processed c1 → c1.ackElicitingSent = false) := by
  refine ⟨?_, ?_, ?_, ?_⟩
  · intro h1 h2 h3
    simp [Conn.onPacketSent, Conn.updateSpace, h1, h2, h3]
  · intro h1
    simp only [Conn.onPacketSent, Conn.updateSpace, h1, if_true]
  · intro h1
    rcases h1 with h1 | h1
    · simp [Conn.onPacketSent, Conn.updateSpace, h1]
    · simp [Conn.onPacketSent, Conn.updateSpace, h1]
  · intro c1 h
    simp only [Conn.recvPacket] at h
    by_cases hcd : (s.packetNumberSpaces.get space).canDecrypt = false
    · rw [if_pos hcd] at h; exact RecvPacketResult.noConfusion h
    · rw [if_neg hcd] at h
      by_cases hdo : dok = false
      · rw [if_pos hdo] at h; exact RecvPacketResult.noConfusion h
      · rw [if_neg hdo] at h
        by_cases hdup : (s.packetNumberSpaces.get space).isPacketReceived p.packetNumber = true
        · rw [if_pos hdup] at h; exact RecvPacketResult.noConfusion h
        · rw [if_neg hdup] at h
          rcases hrf : s.recvFrames p.frames space now with ⟨s1, e⟩
          rw [hrf] at h
          cases e with
          | some err => exact RecvPacketResult.noConfusion h
          | none =>
            injection h with h2
            rw [← h2]

/-- C8 witness: an ack-eliciting packet at time 5 with idle timeout 1000
re-arms the idle timer, a non-eliciting packet leaves it alone, and a
successfully processed packet clears the flag. -/
theorem claim8_idle_rearm_witness :
    ((c8arm.onPacketSent c8op .packetSpaceInitial).idleTimer =
       c8op.timeSent + c8arm.localParams.MaxIdleTimeout) ∧
    ((c8arm.onPacketSent c8op .packetSpaceInitial).ackElicitingSent = true) ∧
    ((c8flag.onPacketSent { c8op with ackEliciting := false } .packetSpaceInitial).idleTimer =
       c8flag.idleTimer) ∧
    ((Conn.recvPacket c8keyed c8pkt true .packetSpaceInitial 0).connOf.ackElicitingSent = false) :=
  ⟨(claim8_idle_rearm c8arm c8op .packetSpaceInitial c8pkt true 0).1 (by decide) (by decide)
     (by decide),
   (claim8_idle_rearm c8arm c8op .packetSpaceInitial c8pkt true 0).2.1 (by decide),
   (claim8_idle_rearm c8flag { c8op with ackEliciting := false } .packetSpaceInitial c8pkt true
      0).2.2.1 (Or.inl (by decide)),
   (claim8_idle_rearm c8keyed c8op .packetSpaceInitial c8pkt true 0).2.2.2
     ((Conn.recvPacket c8keyed c8pkt true .packetSpaceInitial 0).connOf) (by decide)⟩

/-- Counterexample connection/packet for C8: with a zero max idle timeout
the first ack-eliciting packet does not re-arm the idle timer, and a
dropped (undecryptable) packet does not clear the ack-eliciting-sent
flag. -/
theorem claim8_idle_rearm_cex :
    c8op.ackEliciting = true ∧ c8zero.ackElicitingSent = false ∧
    c8zero.localParams.MaxIdleTimeout = 0 ∧
    (c8zero.onPacketSent c8op .packetSpaceInitial).idleTimer = 0 ∧
    (0 : Int) ≠ c8op.timeSent + c8zero.localParams.MaxIdleTimeout ∧
    Conn.recvPacket c8flag c8pkt true .packetSpaceApplication 0 = .dropped c8flag ∧
    c8flag.ackElicitingSent = true := by
  decide

/-! ## Claim C5 -/

/-- C5: a client in Attempted that has not processed a Retry, receiving a
Retry whose DCID equals its SCID and whose SCID differs from its DCID:
with a non-empty token and a verified integrity tag it stores the token,
moves the old DCID to the original-destination CID, adopts the packet's
SCID as DCID and retry-source CID, re-derives Initial secrets from the new
DCID, resets the Initial space and the TLS handshake, and sets `didRetry`
(so any later Retry is dropped); with an empty token or a failed integrity
check it fails with the invalid-token error. -/
theorem claim5_retry (s : Conn) (p : RetryPacket) (iok : Bool)
    (h1 : s.isClient = true) (h2 : s.didRetry = false) (h3 : s.state = .stateAttempted)
    (h4 : p.dcid = s.scid) (h5 : p.scid ≠ s.dcid) :
    (p.token ≠ [] → iok = true →
       ∃ c1, s.recvPacketRetry p iok = .processed c1 ∧
         c1.didRetry = true ∧ c1.token = p.token ∧ c1.odcid = s.dcid ∧
         c1.dcid = p.scid ∧ c1.rscid = p.scid ∧ c1.derivedInitialSecrets = true ∧
         (c1.packetNumberSpaces.get .packetSpaceInitial).opener = some (initialServerKey p.scid) ∧
         (c1.packetNumberSpaces.get .packetSpaceInitial).sealer = some (initialClientKey p.scid) ∧
         (c1.packetNumberSpaces.get .packetSpaceInitial).nextPacketNumber = 0 ∧
         (c1.packetNumberSpaces.get .packetSpaceInitial).cryptoStream = emptyCryptoStream ∧
         c1.recovery.inFlight.get .packetSpaceInitial = [] ∧
         c1.handshake = (s.handshake.reset).setTransportParams s.localParams) ∧
    (p.token = [] ∨ iok = false → s.recvPacketRetry p iok = .failed s errInvalidToken) ∧
    (∀ s2 p2 io2, Conn.didRetry s2 = true → Conn.recvPacketRetry s2 p2 io2 = .dropped s2) := by
  have hguard : ¬(s.isClient = false ∨ s.didRetry = true ∨ s.state ≠ .stateAttempted ∨
      p.dcid ≠ s.scid ∨ p.scid = s.dcid) := by
    simp [h1, h2, h3, h4, h5]
  refine ⟨?_, ?_, ?_⟩
  · intro ht hio
    rw [Conn.recvPacketRetry, if_neg hguard, if_neg (by simp [ht, hio])]
    refine ⟨_, rfl, ?_⟩
    simp [Conn.deriveInitialKeyMaterial, Conn.updateSpace, h1,
          SpaceArray.get_set_same, PacketNumberSpace.reset, PacketNumberSpace.initSpace,
          LossRecovery.dropUnackedData, TLSHandshake.reset, TLSHandshake.setTransportParams]
  · intro h
    rw [Conn.recvPacketRetry, if_neg hguard, if_pos (by rcases h with h | h <;> simp [h])]
  · intro s2 p2 io2 hdr
    rw [Conn.recvPacketRetry, if_pos (Or.inr (Or.inl hdr))]

/-- C5 witness: the concrete client `c5W` with Retry packet `p5W`. -/
theorem claim5_retry_witness :
    (∃ c1, c5W.recvPacketRetry p5W true = .processed c1 ∧ c1.didRetry = true ∧
       c1.token = p5W.token ∧ c1.odcid = c5W.dcid ∧ c1.dcid = p5W.scid) ∧
    (c5W.recvPacketRetry { p5W with token := [] } true = .failed c5W errInvalidToken) ∧
    (Conn.recvPacketRetry { c5W with didRetry := true } p5W true =
       .dropped { c5W with didRetry := true }) := by
  refine ⟨?_, ?_, ?_⟩
  · obtain ⟨c1, hc, hfacts⟩ :=
      (claim5_retry c5W p5W true (by decide) (by decide) (by decide) (by decide) (by decide)).1
        (by decide) rfl
    exact ⟨c1, hc, hfacts.1, hfacts.2.1, hfacts.2.2.1, hfacts.2.2.2.1⟩
  · exact (claim5_retry c5W { p5W with token := [] } true (by decide) (by decide) (by decide)
      (by decide) (by decide)).2.1 (Or.inl rfl)
  · exact (claim5_retry c5W p5W true (by decide) (by decide) (by decide) (by decide)
      (by decide)).2.2 { c5W with didRetry := true } p5W true (by decide)

/-! ## Claim C4 -/

/-- Helper: processing an ACK frame never changes the receiving space's
ack-elicited flag (the only space it can drop is the Handshake space, and
only while receiving in the Application space). -/
theorem recvFrameAck_preserves (s : Conn) (la ad : Nat) (ranges : List (Nat × Nat))
    (space : PacketSpace) (now : Int) :
    (((s.recvFrameAck la ad ranges space now).1).packetNumberSpaces.get space).ackElicited =
      (s.packetNumberSpaces.get space).ackElicited := by
  unfold Conn.recvFrameAck
  by_cases hr : ranges = []
  · simp [hr]
  · simp only [if_neg hr]
    split
    · split
      · rename_i hcond
        obtain ⟨hsp, -⟩ := hcond
        subst hsp
        split
        · simp [Conn.updateSpace, Conn.dropPacketSpace, SpaceArray.get_set_same,
                SpaceArray.get_set_other, LossRecovery.dropUnackedData]
        · simp [Conn.updateSpace, Conn.dropPacketSpace, SpaceArray.get_set_same,
                SpaceArray.get_set_other, LossRecovery.dropUnackedData]
      · simp [Conn.updateSpace, SpaceArray.get_set_same]
    · simp

/-- Helper: a PADDING or ACK frame never changes the receiving space's
ack-elicited flag. -/
theorem recvFrame_paddingOrAck_preserves (s : Conn) (f : Frame) (space : PacketSpace) (now : Int)
    (hf : isPaddingOrAck f = true) :
    (((Conn.recvFrame s f space now).1).packetNumberSpaces.get space).ackElicited =
      (s.packetNumberSpaces.get space).ackElicited := by
  cases f
  case padding n => simp [Conn.recvFrame]
  case ack la ad ranges =>
    simpa [Conn.recvFrame] using recvFrameAck_preserves s la ad ranges space now
  all_goals simp [isPaddingOrAck] at hf

/-- Helper: over a run of PADDING/ACK frames the loop of `recvFrames`
keeps the receiving space's ack-elicited flag and the accumulated
ack-elicited boolean unchanged. -/
theorem recvFramesLoop_paddingOrAck (s : Conn) (frames : List Frame) (space : PacketSpace)
    (now : Int) (acc : Bool) (hf : ∀ f ∈ frames, isPaddingOrAck f = true) :
    ((((Conn.recvFramesLoop s frames space now acc).1).packetNumberSpaces.get space).ackElicited =
      (s.packetNumberSpaces.get space).ackElicited) ∧
    (Conn.recvFramesLoop s frames space now acc).2.2 = acc := by
  induction frames generalizing s acc with
  | nil => simp [Conn.recvFramesLoop]
  | cons f rest ih =>
    have hf0 : isPaddingOrAck f = true := hf f (List.mem_cons_self f rest)
    have hfr : ∀ g ∈ rest, isPaddingOrAck g = true := fun g hg => hf g (List.mem_cons_of_mem f hg)
    have hne : isFrameAckEliciting f = false := by
      cases f <;> first | rfl | simp [isPaddingOrAck] at hf0
    unfold Conn.recvFramesLoop
    rcases hrf : Conn.recvFrame s f space now with ⟨s1, e⟩
    have hpres : (s1.packetNumberSpaces.get space).ackElicited =
        (s.packetNumberSpaces.get space).ackElicited := by
      have hx := recvFrame_paddingOrAck_preserves s f space now hf0
      rw [hrf] at hx
      exact hx
    cases e with
    | some err => exact ⟨hpres, rfl⟩
    | none =>
      simp only [hne, Bool.or_false]
      obtain ⟨ha, hb⟩ := ih s1 acc hfr
      exact ⟨ha.trans hpres, hb⟩

/-- C4: processing a packet whose frames are only PADDING and ACK leaves
the space's ack-elicited flag as it was, and if the flag was unset,
`sendFrameAck` afterwards still produces no ACK frame — an ACK-only packet
never triggers an ACK in response. -/
theorem claim4_ack_only (c : Conn) (frames : List Frame) (space : PacketSpace) (now now2 : Int)
    (hf : ∀ f ∈ frames, isPaddingOrAck f = true) :
    ((((Conn.recvFrames c frames space now).1).packetNumberSpaces.get space).ackElicited =
      (c.packetNumberSpaces.get space).ackElicited) ∧
    ((c.packetNumberSpaces.get space).ackElicited = false →
       Conn.sendFrameAck (Conn.recvFrames c frames space now).1
         (((Conn.recvFrames c frames space now).1).packetNumberSpaces.get space) now2 = none) := by
  have hloop := recvFramesLoop_paddingOrAck c frames space now false hf
  unfold Conn.recvFrames
  rcases hres : Conn.recvFramesLoop c frames space now false with ⟨s1, e, acc⟩
  rw [hres] at hloop
  obtain ⟨ha, hb⟩ := hloop
  subst hb
  cases e with
  | some err =>
    exact ⟨ha, fun hflag => by simp [Conn.sendFrameAck, ha, hflag]⟩
  | none =>
    simp only [Bool.false_eq_true, if_false]
    exact ⟨ha, fun hflag => by simp [Conn.sendFrameAck, ha, hflag]⟩

/-- C4 witness: the base connection fed one PADDING and one ACK frame in
the Initial space: the flag stays clear and no ACK frame is produced. -/
theorem claim4_ack_only_witness :
    ((((Conn.recvFrames baseConn [.padding 3, .ack 0 0 [(0, 0)]]
          .packetSpaceInitial 0).1).packetNumberSpaces.get .packetSpaceInitial).ackElicited =
      ((baseConn.packetNumberSpaces.get .packetSpaceInitial).ackElicited)) ∧
    (Conn.sendFrameAck (Conn.recvFrames baseConn [.padding 3, .ack 0 0 [(0, 0)]]
        .packetSpaceInitial 0).1
      (((Conn.recvFrames baseConn [.padding 3, .ack 0 0 [(0, 0)]]
          .packetSpaceInitial 0).1).packetNumberSpaces.get .packetSpaceInitial) 0 = none) :=
  ⟨(claim4_ack_only baseConn [.padding 3, .ack 0 0 [(0, 0)]] .packetSpaceInitial 0 0
      (by decide)).1,
   (claim4_ack_only baseConn [.padding 3, .ack 0 0 [(0, 0)]] .packetSpaceInitial 0 0
      (by decide)).2 (by decide)⟩


/-! ## Claim C2 -/

/-- Helper: `getOrCreateStream` never touches the connection-level flow
controller. -/
theorem getOrCreateStream_flow (s : Conn) (id : Nat) (l : Bool) :
    ((s.getOrCreateStream id l).1).flow = s.flow := by
  simp only [Conn.getOrCreateStream]
  repeat' split
  all_goals rfl

/-- Helper: a successful stream-receive push appends the chunk to the
stream's receive buffer. -/
theorem pushRecv_chunks (st : Quic.Stream) (data : List Nat) (offset : Nat) (fin : Bool)
    (st2 : Quic.Stream) (h : st.pushRecv data offset fin = .ok st2) :
    st2.recv.chunks = st.recv.chunks ++ [(data, offset, fin)] := by
  unfold Stream.pushRecv at h
  split at h
  · exact Except.noConfusion h
  · split at h
    · exact Except.noConfusion h
    · rename_i rb heq
      cases h
      unfold RecvBuf.push at heq
      split at heq <;> split at heq
      · exact Except.noConfusion heq
      · cases heq; rfl
      · exact Except.noConfusion heq
      · cases heq; rfl

/-- C2 (amended): on a peer-readable stream, a STREAM frame whose data
length exceeds the connection flow controller's remaining credit
`canRecv()` fails with the flow-control error and leaves the connection —
in particular every stream receive buffer — unchanged; otherwise, whenever
frame processing succeeds, the chunk is appended to the stream's receive
buffer and the connection-level received counter grows by the frame's data
length. -/
theorem claim2_stream_flow (s : Conn) (id offset : Nat) (fin : Bool) (data : List Nat)
    (hpeer : ¬(isStreamLocal id s.isClient = true ∧ isStreamBidi id = false)) :
    (s.flow.canRecv < data.length →
       s.recvFrameStream id offset fin data = (s, some errFlowControl)) ∧
    (data.length ≤ s.flow.canRecv →
       (s.recvFrameStream id offset fin data).2 = none →
       ((s.recvFrameStream id offset fin data).1).flow.recv = s.flow.recv + data.length ∧
       ∃ st, ((s.recvFrameStream id offset fin data).1).streams.get id = some st ∧
         st.recv.chunks.getLast? = some (data, offset, fin)) := by
  constructor
  · intro h
    unfold Conn.recvFrameStream
    rw [if_neg hpeer, if_pos h]
  · intro hle h2
    unfold Conn.recvFrameStream at h2 ⊢
    rw [if_neg hpeer, if_neg (not_lt.mpr hle)] at h2 ⊢
    rcases hg : s.getOrCreateStream id false with ⟨s1, r⟩
    rw [hg] at h2
    have hflow : s1.flow = s.flow := by
      have hx := getOrCreateStream_flow s id false
      rw [hg] at hx
      exact hx
    cases r with
    | error e2 => simp at h2
    | ok st =>
      simp only [] at h2
      rcases hp : st.pushRecv data offset fin with e3 | st2
      · rw [hp] at h2
        simp at h2
      · constructor
        · simp [hp, Conn.addEvent, FlowControl.addRecv, hflow]
        · refine ⟨st2, ?_, ?_⟩
          · simp [hp, Conn.addEvent, StreamMap.get_set_self]
          · rw [pushRecv_chunks st data offset fin st2 hp]
            simp

/-- C2 witness: on `c2base` (10 bytes of connection receive credit), a
20-byte frame is rejected with the flow-control error leaving the
connection untouched, while a 5-byte frame at offset 0 is accepted and
counted. -/
theorem claim2_stream_flow_witness :
    (Conn.recvFrameStream c2base 0 0 false (List.replicate 20 1) =
       (c2base, some errFlowControl)) ∧
    ((Conn.recvFrameStream c2base 0 0 false [1, 2, 3, 4, 5]).1).flow.recv =
       c2base.flow.recv + 5 :=
  ⟨(claim2_stream_flow c2base 0 0 false (List.replicate 20 1) (by decide)).1 (by decide),
   ((claim2_stream_flow c2base 0 0 false [1, 2, 3, 4, 5] (by decide)).2 (by decide)
      (by decide)).1⟩

/-- C2 counterexample: a frame at offset 8 with 5 bytes of data has
offset+len = 13 exceeding canRecv() = 10, yet the code accepts it (the
check compares only the data length): processing succeeds and the received
counter becomes 5. -/
theorem claim2_stream_flow_cex :
    c2base.flow.canRecv = 10 ∧ 10 < 8 + 5 ∧
    (Conn.recvFrameStream c2base 0 8 false [1, 2, 3, 4, 5]).2 = none ∧
    ((Conn.recvFrameStream c2base 0 8 false [1, 2, 3, 4, 5]).1).flow.recv = 5 := by
  decide

/-! ## Claim C6 -/

/-- Helper: `getOrCreateStream` never changes the connection's role. -/
theorem getOrCreateStream_isClient (s : Conn) (id : Nat) (l : Bool) :
    ((s.getOrCreateStream id l).1).isClient = s.isClient := by
  simp only [Conn.getOrCreateStream]
  repeat' split
  all_goals rfl

/-- Helper: driving the handshake never changes the connection's role. -/
theorem doHandshake_isClient (s : Conn) :
    ((s.doHandshake).1).isClient = s.isClient := by
  simp only [Conn.doHandshake]
  repeat' split
  all_goals rfl

/-- Helper: no frame handler changes the connection's role. -/
theorem recvFrame_isClient (s : Conn) (f : Frame) (space : PacketSpace) (now : Int) :
    ((Conn.recvFrame s f space now).1).isClient = s.isClient := by
  cases f with
  | padding n => rfl
  | ping => rfl
  | ack la ad ranges =>
    simp only [Conn.recvFrame, Conn.recvFrameAck]
    repeat' split
    all_goals rfl
  | resetStream id ec fs =>
    simp only [Conn.recvFrame, Conn.recvFrameResetStream]
    split
    · rfl
    · rcases hg : s.getOrCreateStream id false with ⟨s1, r⟩
      have hgc := getOrCreateStream_isClient s id false
      rw [hg] at hgc
      cases r with
      | error e => exact hgc
      | ok st =>
        simp only []
        split
        · exact hgc
        · split
          · exact hgc
          · exact hgc
  | stopSending id ec =>
    simp only [Conn.recvFrame, Conn.recvFrameStopSending]
    repeat' split
    all_goals rfl
  | crypto off data =>
    simp only [Conn.recvFrame, Conn.recvFrameCrypto]
    split
    · rfl
    · exact doHandshake_isClient _
  | newToken tok => rfl
  | stream id off fin data =>
    simp only [Conn.recvFrame, Conn.recvFrameStream]
    split
    · rfl
    · split
      · rfl
      · rcases hg : s.getOrCreateStream id false with ⟨s1, r⟩
        have hgc := getOrCreateStream_isClient s id false
        rw [hg] at hgc
        cases r with
        | error e => exact hgc
        | ok st =>
          simp only []
          split
          · exact hgc
          · exact hgc
  | maxData m => rfl
  | maxStreamData id m =>
    simp only [Conn.recvFrame, Conn.recvFrameMaxStreamData]
    rcases hg : s.getOrCreateStream id false with ⟨s1, r⟩
    have hgc := getOrCreateStream_isClient s id false
    rw [hg] at hgc
    cases r with
    | error e => exact hgc
    | ok st => exact hgc
  | maxStreams bidi m =>
    simp only [Conn.recvFrame]
    split <;> rfl
  | dataBlocked n => rfl
  | streamDataBlocked id n => rfl
  | streamsBlocked bidi n => rfl
  | connectionClose app ec ft rp =>
    simp only [Conn.recvFrame, Conn.setDraining]
    split <;> rfl
  | handshakeDone =>
    simp only [Conn.recvFrame, Conn.recvFrameHandshakeDone]
    repeat' split
    all_goals rfl

/-- Helper: the frame loop never changes the connection's role. -/
theorem recvFramesLoop_isClient (frames : List Frame) (s : Conn) (space : PacketSpace)
    (now : Int) (acc : Bool) :
    (((Conn.recvFramesLoop s frames space now acc).1).isClient = s.isClient) := by
  induction frames generalizing s acc with
  | nil => rfl
  | cons f rest ih =>
    unfold Conn.recvFramesLoop
    rcases hrf : Conn.recvFrame s f space now with ⟨s1, e⟩
    have hpres : s1.isClient = s.isClient := by
      have hx := recvFrame_isClient s f space now
      rw [hrf] at hx
      exact hx
    cases e with
    | some err => exact hpres
    | none => exact (ih s1 _).trans hpres

/-- Helper: `recvFrames` never changes the connection's role. -/
theorem recvFrames_isClient (s : Conn) (frames : List Frame) (space : PacketSpace) (now : Int) :
    ((s.recvFrames frames space now).1).isClient = s.isClient := by
  unfold Conn.recvFrames
  rcases hres : Conn.recvFramesLoop s frames space now false with ⟨s1, e, acc⟩
  have hx := recvFramesLoop_isClient frames s space now false
  rw [hres] at hx
  cases e with
  | some err => exact hx
  | none =>
    simp only []
    split
    · exact hx
    · exact hx

/-- Helper: handling one acked frame never changes the connection's role,
state or local parameters. -/
theorem processAckedFrame_core (s : Conn) (space : PacketSpace) (f : Frame) :
    (Conn.processAckedFrame s space f).isClient = s.isClient ∧
    (Conn.processAckedFrame s space f).state = s.state ∧
    (Conn.processAckedFrame s space f).localParams = s.localParams := by
  cases f <;> simp only [Conn.processAckedFrame] <;> (repeat' split) <;>
    simp [Conn.addEvent, Conn.updateSpace]

/-- Helper: draining the acked-frame list never changes the connection's
role, state or local parameters. -/
theorem processAckedPackets_core (s : Conn) (space : PacketSpace) :
    (s.processAckedPackets space).isClient = s.isClient ∧
    (s.processAckedPackets space).state = s.state ∧
    (s.processAckedPackets space).localParams = s.localParams := by
  have main : ∀ (fs : List Frame) (s0 : Conn),
      ((fs.foldl (fun acc f => Conn.processAckedFrame acc space f) s0).isClient = s0.isClient ∧
       (fs.foldl (fun acc f => Conn.processAckedFrame acc space f) s0).state = s0.state ∧
       (fs.foldl (fun acc f => Conn.processAckedFrame acc space f) s0).localParams =
         s0.localParams) := by
    intro fs
    induction fs with
    | nil => intro s0; exact ⟨rfl, rfl, rfl⟩
    | cons f rest ih =>
      intro s0
      simp only [List.foldl_cons]
      obtain ⟨a, b, c⟩ := ih (Conn.processAckedFrame s0 space f)
      obtain ⟨a2, b2, c2⟩ := processAckedFrame_core s0 space f
      exact ⟨a.trans a2, b.trans b2, c.trans c2⟩
  simp only [Conn.processAckedPackets]
  exact main _ _

/-- C6 (amended): a server in Attempted that successfully processes a
received Handshake packet (header CIDs match, decryption succeeds, not a
duplicate, all frames processed without error), provided the packet's
frames leave the connection still in the Attempted state, transitions to
Handshake and drops the Initial packet number space: its keys are
zeroized, its state cleared, and the recovery module's unacked
Initial-space data discarded. -/
theorem claim6_server_handshake (s : Conn) (p : IncomingPacket) (now : Int)
    (h1 : s.isClient = false) (_h2 : s.state = .stateAttempted)
    (h3 : p.dcid = s.scid) (h4 : p.scid = s.dcid)
    (h5 : (s.packetNumberSpaces.get .packetSpaceHandshake).canDecrypt = true)
    (h6 : (s.packetNumberSpaces.get .packetSpaceHandshake).isPacketReceived p.packetNumber =
       false)
    (h7 : (s.recvFrames p.frames .packetSpaceHandshake now).2 = none)
    (h8 : ((s.recvFrames p.frames .packetSpaceHandshake now).1).state = .stateAttempted) :
    ∃ c1, s.recvPacketHandshake p true now = .processed c1 ∧
      c1.state = .stateHandshake ∧
      c1.packetNumberSpaces.get .packetSpaceInitial = PacketNumberSpace.initSpace ∧
      c1.recovery.inFlight.get .packetSpaceInitial = [] ∧
      c1.recovery.acked.get .packetSpaceInitial = [] ∧
      c1.recovery.lost.get .packetSpaceInitial = [] := by
  have hs1ic : ((s.recvFrames p.frames .packetSpaceHandshake now).1).isClient = false :=
    (recvFrames_isClient s p.frames .packetSpaceHandshake now).trans h1
  unfold Conn.recvPacketHandshake
  rw [if_neg (by simp [h3, h4])]
  unfold Conn.recvPacket
  rw [if_neg (by simp [h5]), if_neg (by simp), if_neg (by simp [h6])]
  rcases hrf : s.recvFrames p.frames .packetSpaceHandshake now with ⟨s1, e⟩
  rw [hrf] at h7 h8 hs1ic
  simp only at h7 h8 hs1ic
  subst h7
  obtain ⟨hic, hst, -⟩ := processAckedPackets_core s1 .packetSpaceHandshake
  refine ⟨_, rfl, ?_, ?_, ?_, ?_, ?_⟩
  all_goals split <;> split
  all_goals first
    | (rename_i hnc
       exact absurd ⟨hic.trans hs1ic, rfl, hst.trans h8⟩ hnc)
    | (rename_i hnc
       exact absurd ⟨hic.trans hs1ic, hst.trans h8⟩ hnc)
    | simp [Conn.dropPacketSpace, Conn.updateSpace, SpaceArray.get_set_same,
            LossRecovery.dropUnackedData, PacketNumberSpace.drop]


/-- C6 witness: the keyed server `c6conn` processing a Handshake packet
carrying a PING. -/
theorem claim6_server_handshake_witness :
    ∃ c1, Conn.recvPacketHandshake c6conn c6pktW true 0 = .processed c1 ∧
      c1.state = .stateHandshake ∧
      c1.packetNumberSpaces.get .packetSpaceInitial = PacketNumberSpace.initSpace := by
  obtain ⟨c1, ha, hb, hc, -⟩ :=
    claim6_server_handshake c6conn c6pktW 0 (by decide) (by decide) (by decide) (by decide)
      (by decide) (by decide) (by decide) (by decide)
  exact ⟨c1, ha, hb, hc⟩

/-- C6 counterexample: the same server processing a Handshake packet whose
only frame is CONNECTION_CLOSE: every condition of the claim holds (CIDs
match, decryption succeeds, fresh packet number, all frames processed
without error), yet the connection ends in Draining, not Handshake, and
the Initial keys are not zeroized. -/
theorem claim6_server_handshake_cex :
    c6conn.isClient = false ∧ c6conn.state = .stateAttempted ∧
    c6pkt.dcid = c6conn.scid ∧ c6pkt.scid = c6conn.dcid ∧
    (Conn.recvPacketHandshake c6conn c6pkt true 0).isProcessed = true ∧
    (Conn.recvPacketHandshake c6conn c6pkt true 0).connOf.state = .stateDraining ∧
    (((Conn.recvPacketHandshake c6conn c6pkt true
        0).connOf.packetNumberSpaces.get .packetSpaceInitial).opener.isSome = true) ∧
    ConnectionState.stateDraining ≠ ConnectionState.stateHandshake := by
  decide

end Quic
